import Mathlib

/-!
# Student portal: report-job polling and fallback simulation

A shallow embedding of the report-generation orchestration of the front-end:

* `studentAPI.getReportStatus` and `studentAPI.pollReportStatus`, which exist twice,
  in `src/frontend/src/config/api.js` and in `src/frontend/src/api/config.js`;
* `apiRequest`, the token functions and `studentAPI.generateReport` of the same two modules;
* `generateReport` and `simulateReportProgress` of
  `src/frontend/src/components/student/StudentReportsPage.jsx`;
* `getSampleAchievements` and `handleEndorse` of
  `src/frontend/src/components/student/AchievementsFeedPage.jsx`.

The asynchronous code is embedded by explicit traces: a poll session is run against the
list of results that `apiRequest` delivers to its successive status queries, and produces
the list of observable events (queries issued, callback invocations, timers armed).
Timers of the page are embedded as a small deterministic event loop over the page state.
-/

namespace StudentPortal

/-! ## JavaScript values -/

/-- Truthiness of a JavaScript value that is a string or `undefined`
(`none` is `undefined`): only a non-empty string is truthy. -/
def truthy : Option String → Bool
  | some s => s != ""
  | none => false

/-- The expression `a || d` for a string-or-undefined `a` and a string literal `d`. -/
def orDefault (a : Option String) (d : String) : String :=
  match a with
  | some s => if s != "" then s else d
  | none => d

/-! ## The status endpoint -/

/-- The `result` object of a status response; `report_url` may be absent. -/
structure ReportResult where
  report_url : Option String
  deriving DecidableEq, Repr

/-- A status object as parsed from the JSON body of the report-status endpoint.
Every field may be absent; `status` is compared with `===` against string literals. -/
structure Status where
  status : Option String
  progress : Option Nat
  error : Option String
  task_id : Option String
  result : Option ReportResult
  deriving DecidableEq, Repr

/-- What `apiRequest` delivers for one status query: it resolves with the parsed body
or rejects with an `Error` carrying a message. -/
inductive Outcome where
  | resolved (status : Status)
  | rejected (message : String)
  deriving DecidableEq, Repr

/-- The two modules that define `studentAPI`. -/
inductive Module where
  /-- The module `src/frontend/src/config/api.js` (the one the reports page imports). -/
  | configApi
  /-- The module `src/frontend/src/api/config.js`. -/
  | apiConfig
  deriving DecidableEq, Repr

/-- The function `studentAPI.getReportStatus`, as a map on what `apiRequest` delivers.
`config/api.js` returns the awaited `apiRequest` unchanged; `api/config.js` re-throws a
rejection as `new Error(error.message || 'Failed to fetch report status.')`. -/
def getReportStatus (m : Module) (o : Outcome) : Outcome :=
  match m, o with
  | .configApi, o => o
  | .apiConfig, .resolved s => .resolved s
  | .apiConfig, .rejected msg => .rejected (orDefault (some msg) "Failed to fetch report status.")

/-- The argument given to `onError` for a status whose `status` is `'failed'`:
`status.error` in `config/api.js`, `status.error || 'Report generation failed'`
in `api/config.js`. -/
def failedArg (m : Module) (error : Option String) : Option String :=
  match m with
  | .configApi => error
  | .apiConfig => some (orDefault error "Report generation failed")

/-! ## Callbacks and traces -/

/-- How a call of a caller-supplied callback ends: it returns, or it raises a value
whose `message` property is the given string (or is absent). -/
inductive CallResult where
  | returned
  | raised (message : Option String)
  deriving DecidableEq, Repr

/-- The three callbacks handed to `pollReportStatus`. A callback may be omitted (`none`),
which the guards `if (onProgress)`, `if (onComplete)`, `if (onError)` test. -/
structure Callbacks where
  onProgress : Option (Status → CallResult)
  onComplete : Option (Status → CallResult)
  onError : Option (Option String → CallResult)

/-- Observable events of a poll session. -/
inductive Event where
  /-- A status query `getReportStatus(taskId)` is issued. -/
  | query (taskId : String)
  /-- The call `onProgress(status)`. -/
  | progress (status : Status)
  /-- The call `onComplete(status)`. -/
  | complete (status : Status)
  /-- The call `onError(arg)`. -/
  | error (arg : Option String)
  /-- The call `setTimeout(poll, interval)`. -/
  | schedule (interval : Nat)
  deriving DecidableEq, Repr

/-- How the `try` block of `poll` ends. -/
inductive TryResult where
  /-- The statement `return true` was reached. -/
  | done
  /-- The next poll was scheduled. -/
  | scheduled
  /-- An exception reached the `catch` clause. -/
  | thrown (message : Option String)
  deriving DecidableEq, Repr

/-- The statement `if (onProgress) onProgress(status)`. -/
def callProgress (cb : Callbacks) (s : Status) : List Event × CallResult :=
  match cb.onProgress with
  | none => ([], .returned)
  | some f => ([.progress s], f s)

/-- The statement `if (onComplete) onComplete(status)`. -/
def callComplete (cb : Callbacks) (s : Status) : List Event × CallResult :=
  match cb.onComplete with
  | none => ([], .returned)
  | some f => ([.complete s], f s)

/-- The statement `if (onError) onError(arg)`. -/
def callError (cb : Callbacks) (arg : Option String) : List Event × CallResult :=
  match cb.onError with
  | none => ([], .returned)
  | some f => ([.error arg], f arg)

/-- The `try` block of `poll`, run on what `apiRequest` delivers for this query. -/
def tryBlock (m : Module) (cb : Callbacks) (taskId : String) (interval : Nat)
    (o : Outcome) : List Event × TryResult :=
  match getReportStatus m o with
  | .rejected msg => ([.query taskId], .thrown (some msg))
  | .resolved status =>
    match callProgress cb status with
    | (e1, .raised x) => (.query taskId :: e1, .thrown x)
    | (e1, .returned) =>
      if status.status = some "completed" then
        match callComplete cb status with
        | (e2, .raised x) => (.query taskId :: (e1 ++ e2), .thrown x)
        | (e2, .returned) => (.query taskId :: (e1 ++ e2), .done)
      else if status.status = some "failed" then
        match callError cb (failedArg m status.error) with
        | (e2, .raised x) => (.query taskId :: (e1 ++ e2), .thrown x)
        | (e2, .returned) => (.query taskId :: (e1 ++ e2), .done)
      else
        (.query taskId :: (e1 ++ [.schedule interval]), .scheduled)

/-- One run of the closure `poll`: the `try` block followed, when it threw, by the
`catch` clause `if (onError) onError(error.message); return true`. The Boolean tells
whether a further run of `poll` was scheduled. -/
def poll (m : Module) (cb : Callbacks) (taskId : String) (interval : Nat)
    (o : Outcome) : List Event × Bool :=
  match tryBlock m cb taskId interval o with
  | (ev, .thrown x) => (ev ++ (callError cb x).1, false)
  | (ev, .done) => (ev, false)
  | (ev, .scheduled) => (ev, true)

/-- The function `studentAPI.pollReportStatus`, run against the results delivered to its
successive status queries: `poll()` is called, and each scheduled timer calls it again.
The trace covers the queries that were answered. -/
def pollReportStatus (m : Module) (cb : Callbacks) (taskId : String) (interval : Nat) :
    List Outcome → List Event
  | [] => []
  | o :: rest =>
    match poll m cb taskId interval o with
    | (ev, true) => ev ++ pollReportStatus m cb taskId interval rest
    | (ev, false) => ev

/-! ## Reading a trace -/

/-- Whether an event is a callback invocation. -/
def Event.isCallback : Event → Bool
  | .progress _ => true
  | .complete _ => true
  | .error _ => true
  | _ => false

/-- Whether an event is an invocation of `onComplete` or of `onError`. -/
def Event.isTerminal : Event → Bool
  | .complete _ => true
  | .error _ => true
  | _ => false

/-- Whether an event is a status query. -/
def Event.isQuery : Event → Bool
  | .query _ => true
  | _ => false

/-- The callback invocations of a trace, in order. -/
def callbacks (tr : List Event) : List Event := tr.filter Event.isCallback

/-- The number of status queries of a trace. -/
def queryCount (tr : List Event) : Nat := (tr.filter Event.isQuery).length

/-- The arguments of the `onProgress` invocations of a trace, in order. -/
def progressArgs : List Event → List Status
  | [] => []
  | .progress s :: tr => s :: progressArgs tr
  | _ :: tr => progressArgs tr

/-- The arguments of the `onComplete` invocations of a trace, in order. -/
def completeArgs : List Event → List Status
  | [] => []
  | .complete s :: tr => s :: completeArgs tr
  | _ :: tr => completeArgs tr

/-- The arguments of the `onError` invocations of a trace, in order. -/
def errorArgs : List Event → List (Option String)
  | [] => []
  | .error a :: tr => a :: errorArgs tr
  | _ :: tr => errorArgs tr

/-- A status is terminal when its `status` field is `'completed'` or `'failed'`. -/
def Status.isTerminal (s : Status) : Bool :=
  s.status = some "completed" || s.status = some "failed"

/-- A query outcome is terminal when it is a terminal status or a failed query. -/
def Outcome.isTerminal : Outcome → Bool
  | .resolved s => s.isTerminal
  | .rejected _ => true

/-- The value `status.progress || 0` that the page displays. -/
def Status.progressValue (s : Status) : Nat := s.progress.getD 0

/-- Callbacks that never raise. -/
def Callbacks.Quiet (cb : Callbacks) : Prop :=
  (∀ f, cb.onProgress = some f → ∀ s, f s = .returned) ∧
  (∀ f, cb.onComplete = some f → ∀ s, f s = .returned) ∧
  (∀ f, cb.onError = some f → ∀ a, f a = .returned)

/-- Callbacks that are all supplied and only record their invocation. -/
def recorder : Callbacks :=
  { onProgress := some fun _ => .returned
    onComplete := some fun _ => .returned
    onError := some fun _ => .returned }

/-- A status `failed` with the given `error` field and nothing else. -/
def mkFailed (error : Option String) : Status :=
  { status := some "failed", progress := none, error := error, task_id := none,
    result := none }

/-- A status with the given `status` and `progress` fields and nothing else. -/
def mkStatus (kind : String) (progress : Nat) : Status :=
  { status := some kind, progress := some progress, error := none, task_id := none,
    result := none }

/-- The trace of the non-terminal observations that precede the rest of a session. -/
def prefixTrace (cb : Callbacks) (t : String) (i : Nat) : List Outcome → List Event
  | [] => []
  | .resolved s :: pre =>
    (.query t :: ((callProgress cb s).1 ++ [.schedule i])) ++ prefixTrace cb t i pre
  | .rejected _ :: pre => prefixTrace cb t i pre

/-- The statuses a session observes: those delivered up to and including the first
terminal one; a failed query delivers none and ends the session. -/
def observedStatuses : List Outcome → List Status
  | [] => []
  | .rejected _ :: _ => []
  | .resolved s :: rest => if s.isTerminal then [s] else s :: observedStatuses rest

/-- The observations of scenario 1 of the specification. -/
def scenario1 : List Outcome :=
  [.resolved (mkStatus "queued" 0), .resolved (mkStatus "processing" 40),
   .resolved (mkStatus "processing" 80), .resolved (mkStatus "completed" 100)]

/-- The statuses that the endpoint delivered, in order. -/
def deliveredStatuses : List Outcome → List Status
  | [] => []
  | .resolved s :: rest => s :: deliveredStatuses rest
  | .rejected _ :: rest => deliveredStatuses rest

/-! ## The reports page -/

/-- A JavaScript value used as an identifier: a number, a string, or `undefined`. -/
inductive JsId where
  | num (n : Int)
  | str (s : String)
  | undefined
  deriving DecidableEq, Repr

/-- Truthiness of an identifier: `0`, the empty string and `undefined` are falsy. -/
def JsId.truthy : JsId → Bool
  | .num n => n != 0
  | .str s => s != ""
  | .undefined => false

/-- The object held in the state `reportStatus`; a field absent from the object is `none`. -/
structure ReportStatus where
  status : Option String
  title : Option String
  message : Option String
  progress : Option String
  taskId : Option String
  deriving DecidableEq, Repr

/-- An entry of the state `reports`. -/
structure Report where
  id : JsId
  title : String
  report_type : String
  status : String
  created_at : String
  file_url : String
  deriving DecidableEq, Repr

/-- The object parsed from the `userData` entry of the local storage. -/
structure UserData where
  id : JsId
  deriving DecidableEq, Repr

/-- The state of `StudentReportsPage` that report generation reads and writes. -/
structure PageState where
  reports : List Report
  generatingReport : Bool
  reportStatus : Option ReportStatus
  error : Option String
  userData : Option UserData
  usingFallback : Bool
  deriving DecidableEq, Repr

/-- The readings of the clock taken when a callback runs: `Date.now()`,
`new Date().toISOString()` and `new Date().toLocaleDateString()`. -/
structure Clock where
  now : Nat
  isoString : String
  localeDateString : String
  deriving DecidableEq, Repr

/-- The expression `reportType.charAt(0).toUpperCase() + reportType.slice(1)`, for the
given `toUpperCase`. -/
def capitalize (toUpperCase : String → String) (reportType : String) : String :=
  toUpperCase (reportType.take 1) ++ reportType.drop 1

/-- The updater `prev => ({...prev, progress: p, message: msg})`; spreading `null`
yields no field. -/
def withProgress (prev : Option ReportStatus) (p msg : String) : ReportStatus :=
  match prev with
  | some r => { r with progress := some p, message := some msg }
  | none => { status := none, title := none, message := some msg, progress := some p,
              taskId := none }

/-- The progress callback that `generateReport` hands to `pollReportStatus`. -/
def progressCallback (st : PageState) (status : Status) : PageState :=
  { st with reportStatus := some (withProgress st.reportStatus
      (toString status.progressValue ++ "%")
      ("Processing... " ++ toString status.progressValue ++ "% complete")) }

/-- The completion callback that `generateReport` hands to `pollReportStatus`. -/
def completionCallback (toUpperCase : String → String) (clock : Clock) (reportType : String)
    (st : PageState) (status : Status) : PageState :=
  { st with
    reportStatus := some
      { status := some "completed"
        title := some (capitalize toUpperCase reportType ++ " Report")
        message := some "Report generated successfully!"
        progress := some "100%"
        taskId := none }
    reports :=
      { id := match status.task_id with
          | some t => .str t
          | none => .undefined
        title := capitalize toUpperCase reportType ++ " Report"
        report_type := reportType
        status := "completed"
        created_at := clock.isoString
        file_url := orDefault (status.result.bind fun r => r.report_url)
          ("#" ++ status.task_id.getD "undefined") } :: st.reports
    usingFallback := true }

/-- The error callback that `generateReport` hands to `pollReportStatus`. -/
def errorCallback (st : PageState) (error : Option String) : PageState :=
  { st with
    error := some ("Report generation failed: " ++ error.getD "undefined")
    reportStatus := some
      { status := some "failed"
        title := some "Report Generation Failed"
        message := error
        progress := some "0%"
        taskId := none } }

/-- The timers of one run of `simulateReportProgress`. -/
inductive Timer where
  /-- The timer of `setInterval(..., 300)`. -/
  | interval
  /-- The timer of `setTimeout(..., 500)`. -/
  | timeout
  deriving DecidableEq, Repr

/-- The closure state of one run of `simulateReportProgress`: its arguments, the local
variable `progress`, and which of its two timers is armed. -/
structure SimSession where
  reportId : Nat
  reportType : String
  progress : Nat
  intervalActive : Bool
  timeoutPending : Bool
  deriving DecidableEq, Repr

/-- The synchronous part of `simulateReportProgress`: the status is set to `processing`
at `0%` and the interval timer is armed. -/
def simulateReportProgress (toUpperCase : String → String) (st : PageState)
    (reportId : Nat) (reportType : String) : PageState × SimSession :=
  ({ st with
      reportStatus := some
        { status := some "processing"
          title := some (capitalize toUpperCase reportType ++ " Report")
          message := some "Generating your report..."
          progress := some "0%"
          taskId := none } },
   { reportId := reportId, reportType := reportType, progress := 0,
     intervalActive := true, timeoutPending := false })

/-- The callback of the interval timer: one tick. -/
def intervalCallback (x : PageState × SimSession) : PageState × SimSession :=
  let progress := x.2.progress + 10
  let st : PageState :=
    { x.1 with reportStatus := some (withProgress x.1.reportStatus
        (toString progress ++ "%")
        ("Processing... " ++ toString progress ++ "% complete")) }
  if progress ≥ 100 then
    (st, { x.2 with progress := progress, intervalActive := false, timeoutPending := true })
  else
    (st, { x.2 with progress := progress })

/-- The callback of the timeout armed by the last tick. -/
def timeoutCallback (toUpperCase : String → String) (clock : Clock)
    (x : PageState × SimSession) : PageState × SimSession :=
  ({ x.1 with
      reportStatus := some
        { status := some "completed"
          title := some (capitalize toUpperCase x.2.reportType ++ " Report")
          message := some "Report generated successfully!"
          progress := some "100%"
          taskId := none }
      reports :=
        { id := .num x.2.reportId
          title := capitalize toUpperCase x.2.reportType ++ " Report - "
            ++ clock.localeDateString
          report_type := x.2.reportType
          status := "completed"
          created_at := clock.isoString
          file_url := "#" ++ toString x.2.reportId } :: x.1.reports
      usingFallback := true },
   { x.2 with timeoutPending := false })

/-- One turn of the event loop for a simulator session: the armed timer fires. The
interval is cleared in the very callback that arms the timeout, so at most one timer of
the session is armed at a time; with none armed nothing happens. -/
def simStep (toUpperCase : String → String) (clock : Clock)
    (x : PageState × SimSession) : (PageState × SimSession) × Option Timer :=
  if x.2.intervalActive then (intervalCallback x, some .interval)
  else if x.2.timeoutPending then (timeoutCallback toUpperCase clock x, some .timeout)
  else (x, none)

/-- The first `n` turns of the event loop from a state; `clock k` is the reading taken by
turn `k`. The list records the timers that fired, in order. -/
def simRun (toUpperCase : String → String) (clock : Nat → Clock)
    (x : PageState × SimSession) : Nat → (PageState × SimSession) × List Timer
  | 0 => (x, [])
  | n + 1 =>
    let r := simRun toUpperCase clock x n
    let r2 := simStep toUpperCase (clock n) r.1
    (r2.1, r.2 ++ r2.2.toList)

/-- The body that `studentAPI.generateReport` resolves with: JSON `null`, or an object
whose `task_id` may be absent. -/
inductive SubmitBody where
  | jsonNull
  | object (task_id : Option String)
  deriving DecidableEq, Repr

/-- What `studentAPI.generateReport` delivers to the page. -/
inductive SubmitOutcome where
  | resolved (body : SubmitBody)
  | rejected (message : String)
  deriving DecidableEq, Repr

/-- The calls that the page's `generateReport` makes. -/
inductive Action where
  /-- The call `studentAPI.generateReport(studentId, reportType)`. -/
  | submit (studentId : JsId) (reportType : String)
  /-- The call `studentAPI.pollReportStatus(taskId, ..., interval)`. -/
  | pollStarted (taskId : String) (interval : Nat)
  /-- The call `simulateReportProgress(reportId, reportType)`. -/
  | simulateStarted (reportId : Nat) (reportType : String)
  deriving DecidableEq, Repr

/-- The expression `userData?.id || 'current'`. -/
def studentIdOf (userData : Option UserData) : JsId :=
  match userData with
  | some u => if u.id.truthy then u.id else .str "current"
  | none => .str "current"

/-- The `catch` clause of the page's `generateReport`, followed by its `finally`. -/
def generateReportCatch (toUpperCase : String → String) (clock : Clock) (st : PageState)
    (studentId : JsId) (reportType : String) (message : String) :
    PageState × List Action × Option SimSession :=
  let st2 : PageState :=
    { st with error := some ("Failed to start report generation: " ++ message) }
  let r := simulateReportProgress toUpperCase st2 clock.now reportType
  ({ r.1 with generatingReport := false },
   [.submit studentId reportType, .simulateStarted clock.now reportType],
   some r.2)

/-- The page's `generateReport`, run on what `studentAPI.generateReport` delivers.
`typeError` is the message of the `TypeError` that reading `task_id` of `null` raises.
It returns the new page state, the calls made, and the simulator session if one started. -/
def generateReport (toUpperCase : String → String) (typeError : String) (clock : Clock)
    (st : PageState) (reportTypeArg : Option String) (o : SubmitOutcome) :
    PageState × List Action × Option SimSession :=
  let reportType := reportTypeArg.getD "comprehensive"
  let st1 : PageState := { st with generatingReport := true, error := none }
  let studentId := studentIdOf st.userData
  match o with
  | .rejected message =>
    generateReportCatch toUpperCase clock st1 studentId reportType message
  | .resolved .jsonNull =>
    generateReportCatch toUpperCase clock st1 studentId reportType typeError
  | .resolved (.object task_id) =>
    match task_id with
    | some t =>
      if t != "" then
        ({ st1 with
            reportStatus := some
              { status := some "processing"
                title := some ("Generating " ++ reportType ++ " Report")
                message := some "Report generation started in background..."
                progress := some "0%"
                taskId := some t }
            generatingReport := false },
         [.submit studentId reportType, .pollStarted t 3000], none)
      else
        ({ st1 with generatingReport := false }, [.submit studentId reportType], none)
    | none =>
      ({ st1 with generatingReport := false }, [.submit studentId reportType], none)

/-- The status shown by a page state. -/
def PageState.shownStatus (st : PageState) : Option String :=
  st.reportStatus.bind fun r => r.status

/-- The progress shown by a page state. -/
def PageState.shownProgress (st : PageState) : Option String :=
  st.reportStatus.bind fun r => r.progress

/-- A page state as it is after mounting: no report, nothing shown. -/
def initialPage : PageState :=
  { reports := [], generatingReport := false, reportStatus := none, error := none,
    userData := none, usingFallback := false }

/-- A clock that always gives the same reading. -/
def fixedClock (_ : Nat) : Clock :=
  { now := 1700000000000, isoString := "2023-11-14T22:13:20.000Z",
    localeDateString := "11/14/2023" }

/-- The state of the page and of a simulator session `n` turns of the event loop after
`simulateReportProgress(reportId, reportType)` was called in page state `st`, with the
timers that fired. -/
def simAfter (toUpperCase : String → String) (clock : Nat → Clock) (st : PageState)
    (reportId : Nat) (reportType : String) (n : Nat) :
    (PageState × SimSession) × List Timer :=
  simRun toUpperCase clock (simulateReportProgress toUpperCase st reportId reportType) n

/-- The report that the timeout callback of a simulator session prepends. -/
def simulatedReport (toUpperCase : String → String) (clock : Clock) (reportId : Nat)
    (reportType : String) : Report :=
  { id := .num reportId
    title := capitalize toUpperCase reportType ++ " Report - " ++ clock.localeDateString
    report_type := reportType
    status := "completed"
    created_at := clock.isoString
    file_url := "#" ++ toString reportId }

/-- The status object that a simulator session shows after its `k`-th tick. -/
def tickedStatus (toUpperCase : String → String) (reportType : String) (k : Nat) :
    ReportStatus :=
  { status := some "processing"
    title := some (capitalize toUpperCase reportType ++ " Report")
    message := some (if k = 0 then "Generating your report..."
      else "Processing... " ++ toString (10 * k) ++ "% complete")
    progress := some (toString (10 * k) ++ "%")
    taskId := none }

/-- The status object that a completed report shows. -/
def completedStatus (toUpperCase : String → String) (reportType : String) : ReportStatus :=
  { status := some "completed"
    title := some (capitalize toUpperCase reportType ++ " Report")
    message := some "Report generated successfully!"
    progress := some "100%"
    taskId := none }

/-- The outcomes that a session consumes: those up to and including the first terminal
one. -/
def consumedOutcomes : List Outcome → List Outcome
  | [] => []
  | o :: rest => if o.isTerminal then [o] else o :: consumedOutcomes rest

/-- The callbacks that the page's `generateReport` hands to `pollReportStatus`: all three
are supplied, and each only calls state setters, so none raises. -/
def pageCallbacks : Callbacks :=
  { onProgress := some fun _ => .returned
    onComplete := some fun _ => .returned
    onError := some fun _ => .returned }

/-- What one run of the page's `generateReport` does, in order: the calls it makes, and
the events of the poll session it starts. -/
inductive PageEvent where
  /-- A call made by `generateReport`. -/
  | call (a : Action)
  /-- An event of the poll session started by `generateReport`. -/
  | session (e : Event)
  deriving DecidableEq, Repr

/-- One run of the page's `generateReport` on what the submission delivers, followed by
the poll session it starts (through `config/api.js`, which the page imports), run against
the results delivered to the status queries. -/
def pageRun (toUpperCase : String → String) (typeError : String) (clock : Clock)
    (st : PageState) (reportTypeArg : Option String) (o : SubmitOutcome)
    (outcomes : List Outcome) : List PageEvent :=
  (generateReport toUpperCase typeError clock st reportTypeArg o).2.1.flatMap fun a =>
    match a with
    | .pollStarted taskId interval =>
      .call a :: (pollReportStatus .configApi pageCallbacks taskId interval outcomes).map
        PageEvent.session
    | _ => [.call a]

/-- The effect on the page of one event of a poll session started by `generateReport`
for `reportType`: a callback invocation runs the corresponding callback of the page,
the other events leave the page as it is. -/
def applyEvent (toUpperCase : String → String) (clock : Clock) (reportType : String)
    (st : PageState) : Event → PageState
  | .progress s => progressCallback st s
  | .complete s => completionCallback toUpperCase clock reportType st s
  | .error e => errorCallback st e
  | .query _ => st
  | .schedule _ => st

/-- The effect on the page of the events of a poll session, in order. -/
def applyEvents (toUpperCase : String → String) (clock : Clock) (reportType : String)
    (st : PageState) (tr : List Event) : PageState :=
  tr.foldl (applyEvent toUpperCase clock reportType) st

/-! ## Requests to the service -/

/-- The entries `token`, `accessToken` and `jwtToken` of the local storage; `none` is an
entry that does not exist. -/
structure Storage where
  token : Option String
  accessToken : Option String
  jwtToken : Option String
  deriving DecidableEq, Repr

/-- The function `getToken`:
`localStorage.getItem("token") || localStorage.getItem("accessToken")`. -/
def getToken (s : Storage) : Option String :=
  if truthy s.token then s.token else s.accessToken

/-- The function `removeToken`: the three entries are removed. -/
def removeToken (_ : Storage) : Storage :=
  { token := none, accessToken := none, jwtToken := none }

/-- The function `setToken`: `config/api.js` stores the entry `token`, `api/config.js`
stores `token` and `accessToken`. -/
def setToken (m : Module) (s : Storage) (token : String) : Storage :=
  match m with
  | .configApi => { s with token := some token }
  | .apiConfig => { s with token := some token, accessToken := some token }

/-- A headers object: its keys with their values. -/
abbrev Headers := List (String × String)

/-- The object `{...a, ...b}`: the keys of `b` override those of `a`. -/
def spreadHeaders (a b : Headers) : Headers :=
  a.filter (fun kv => (b.lookup kv.1).isNone) ++ b

/-- An object given to `JSON.stringify` as a request body: its keys with their values. -/
abbrev JsonObject := List (String × JsId)

/-- What `JSON.stringify` keeps of an object: a key whose value is `undefined` is left
out. The body is kept as the object, not as its text. -/
def stringify (fields : JsonObject) : JsonObject :=
  fields.filter fun kv => kv.2 != JsId.undefined

/-- The `options` argument of `apiRequest`; `none` is a key that the object lacks. -/
structure Options where
  method : Option String
  headers : Option Headers
  body : Option JsonObject
  deriving DecidableEq, Repr

/-- The call `fetch(url, config)`: the URL and the keys of `config`. -/
structure Request where
  url : String
  method : Option String
  headers : Headers
  body : Option JsonObject
  deriving DecidableEq, Repr

/-- The object `config` that `apiRequest` builds, with the URL it is sent to. The key
`headers` is first set to the spread of the content type, of the bearer token when
`getToken()` is truthy, and of `options.headers`; then `...options` follows, so that
every key of `options`, `headers` included, replaces what precedes. `api/config.js`
also sets `method: options.method || 'GET'` before `...options`. -/
def buildRequest (m : Module) (url : String) (token : Option String) (options : Options) :
    Request :=
  let headersLiteral : Headers :=
    spreadHeaders
      (spreadHeaders [("Content-Type", "application/json")]
        (if truthy token then [("Authorization", "Bearer " ++ token.getD "")] else []))
      (options.headers.getD [])
  { url := url
    method :=
      match options.method with
      | some x => some x
      | none =>
        match m with
        | .configApi => none
        | .apiConfig => some "GET"
    headers :=
      match options.headers with
      | some h => h
      | none => headersLiteral
    body := options.body }

/-- A response of `fetch`, as far as `apiRequest` reads it: the status, the text of the
body, what `response.json()` gives (the parsed body, or the message of the error it
raises), and `errorMessage`, the message that lines 86 to 93 of `api/config.js` compute
from the body of a response that is not ok. -/
structure Response (α : Type) where
  status : Nat
  text : String
  json : Except String α
  errorMessage : String

/-- The property `response.ok`: the status is in the range 200 to 299. -/
def Response.ok {α : Type} (r : Response α) : Bool :=
  200 ≤ r.status && r.status ≤ 299

/-- How a call of `fetch` ends: it rejects with an error of the given message (a network
failure), or it resolves with a response. -/
inductive FetchResult (α : Type) where
  | rejected (message : String)
  | response (r : Response α)

/-- What a call of `apiRequest` leaves behind: the local storage, the value assigned to
`window.location.href` if any, the calls of `fetch` made, and the parsed body it resolves
with or the message of the error it rejects with. -/
structure ApiResult (α : Type) where
  storage : Storage
  location : Option String
  requests : List Request
  result : Except String α

/-- The `catch` clause of `apiRequest`: `config/api.js` throws the error again,
`api/config.js` replaces an error whose message is `Failed to fetch`. -/
def rethrown (m : Module) (message : String) : String :=
  match m with
  | .configApi => message
  | .apiConfig =>
    if message = "Failed to fetch" then
      "Network error. Please check your connection and ensure the server is running."
    else message

/-- The message of the error thrown on a response of status 401. -/
def authMessage : Module → String
  | .configApi => "Authentication failed"
  | .apiConfig => "Authentication failed. Please login again."

/-- The function `apiRequest`, run on how its one call of `fetch` ends. -/
def apiRequest {α : Type} (m : Module) (baseURL : String) (storage : Storage)
    (endpoint : String) (options : Options) (fr : FetchResult α) : ApiResult α :=
  let request := buildRequest m (baseURL ++ endpoint) (getToken storage) options
  match fr with
  | .rejected message =>
    { storage := storage, location := none, requests := [request],
      result := .error (rethrown m message) }
  | .response r =>
    if r.status = 401 then
      { storage := removeToken storage, location := some "/login", requests := [request],
        result := .error (rethrown m (authMessage m)) }
    else if r.status = 403 then
      { storage := storage, location := none, requests := [request],
        result := .error
          (rethrown m "Permission denied: You don't have access to this resource") }
    else if !r.ok then
      { storage := storage, location := none, requests := [request],
        result := .error (rethrown m
          (match m with
            | .configApi => "HTTP " ++ toString r.status ++ ": " ++ r.text
            | .apiConfig => r.errorMessage)) }
    else
      match r.json with
      | .ok data =>
        { storage := storage, location := none, requests := [request], result := .ok data }
      | .error message =>
        { storage := storage, location := none, requests := [request],
          result := .error (rethrown m message) }

/-- The endpoint `API_ENDPOINTS.generateReport`. -/
def API_ENDPOINTS.generateReport : String := "/api/students/generate-report/"

/-- The endpoint `API_ENDPOINTS.reportStatus(taskId)`. -/
def API_ENDPOINTS.reportStatus (taskId : String) : String :=
  "/api/students/report-status/" ++ taskId ++ "/"

/-- The function `studentAPI.generateReport`; `reportType` is `none` when the argument
is omitted. `api/config.js` throws a rejection again as
`new Error(error.message || 'Failed to generate report.')`. -/
def studentAPI.generateReport (m : Module) (baseURL : String) (storage : Storage)
    (studentId : JsId) (reportType : Option String) (fr : FetchResult SubmitBody) :
    ApiResult SubmitBody :=
  let r := apiRequest m baseURL storage API_ENDPOINTS.generateReport
    { method := some "POST"
      headers := none
      body := some (stringify [("student_id", studentId),
        ("report_type", .str (reportType.getD "comprehensive"))]) } fr
  match m with
  | .configApi => r
  | .apiConfig =>
    { r with
      result := match r.result with
        | .ok data => .ok data
        | .error message => .error (orDefault (some message) "Failed to generate report.") }

/-- The request `apiRequest(API_ENDPOINTS.reportStatus(taskId))` that
`studentAPI.getReportStatus` awaits. -/
def reportStatusRequest (m : Module) (baseURL : String) (storage : Storage)
    (taskId : String) (fr : FetchResult Status) : ApiResult Status :=
  apiRequest m baseURL storage (API_ENDPOINTS.reportStatus taskId)
    { method := none, headers := none, body := none } fr

/-- What `apiRequest` delivers for a status query, as an outcome of the query. -/
def toOutcome : Except String Status → Outcome
  | .ok status => .resolved status
  | .error message => .rejected message

/-- A response that carries only a status code. -/
def bareResponse (α : Type) (status : Nat) : Response α :=
  { status := status, text := "", json := .error "Unexpected end of JSON input",
    errorMessage := "HTTP " ++ toString status }

/-- A local storage whose only entry is `token`. -/
def tokenStorage (t : String) : Storage :=
  { token := some t, accessToken := none, jwtToken := none }

/-- Options whose only key is `headers`. -/
def headerOptions (h : Headers) : Options :=
  { method := none, headers := some h, body := none }

/-- Options without the key `headers`. -/
def plainOptions (method : Option String) (body : Option JsonObject) : Options :=
  { method := method, headers := none, body := body }

/-! ## Several jobs on one page -/

/-- A job started by the page's `generateReport` that may still run callbacks: a poll
session (its task, its report type, and whether a query is pending or scheduled), or a
simulator session. -/
inductive Session where
  | poll (taskId : String) (reportType : String) (active : Bool)
  | sim (s : SimSession)
  deriving DecidableEq, Repr

/-- Whether a session can still run a callback. -/
def Session.active : Session → Bool
  | .poll _ _ a => a
  | .sim s => s.intervalActive || s.timeoutPending

/-- The page together with the sessions started so far, in the order they started. -/
structure World where
  page : PageState
  sessions : List Session
  deriving DecidableEq, Repr

/-- What can happen next on the page: the user starts a report and the submission
delivers `o`; the pending status query of session `k` is answered by `o`; the armed timer
of session `k` fires. -/
inductive Step where
  | generate (clock : Clock) (reportTypeArg : Option String) (o : SubmitOutcome)
  | answer (k : Nat) (clock : Clock) (o : Outcome)
  | timer (k : Nat) (clock : Clock)
  deriving DecidableEq, Repr

/-- The sessions that a run of `generateReport` for `reportType` starts. -/
def startedSessions (reportType : String)
    (r : PageState × List Action × Option SimSession) : List Session :=
  r.2.1.filterMap (fun a =>
      match a with
      | .pollStarted t _ => some (Session.poll t reportType true)
      | _ => none)
    ++ r.2.2.toList.map Session.sim

/-- One step of the page. A run of `generateReport` is taken together with the answer to
its submission; the callbacks that one run of `poll` invokes run together; a step that
addresses a session that does not exist, or is not of the right kind, or has ended,
changes nothing. -/
def World.step (toUpperCase : String → String) (typeError : String) (w : World) :
    Step → World
  | .generate clock reportTypeArg o =>
    let r := generateReport toUpperCase typeError clock w.page reportTypeArg o
    { page := r.1
      sessions := w.sessions ++ startedSessions (reportTypeArg.getD "comprehensive") r }
  | .answer k clock o =>
    match w.sessions[k]? with
    | some (.poll t reportType true) =>
      let r := poll .configApi pageCallbacks t 3000 o
      { page := applyEvents toUpperCase clock reportType w.page r.1
        sessions := w.sessions.set k (.poll t reportType r.2) }
    | _ => w
  | .timer k clock =>
    match w.sessions[k]? with
    | some (.sim s) =>
      let r := simStep toUpperCase clock (w.page, s)
      { page := r.1.1, sessions := w.sessions.set k (.sim r.1.2) }
    | _ => w

/-- The page after a list of steps. -/
def World.run (toUpperCase : String → String) (typeError : String) (w : World)
    (steps : List Step) : World :=
  steps.foldl (World.step toUpperCase typeError) w

/-- No session of the page can run a callback any more. -/
def World.idle (w : World) : Bool :=
  w.sessions.all fun s => !s.active

/-- A list of steps in which every report is started while no earlier job is in flight. -/
def sequential (toUpperCase : String → String) (typeError : String) :
    World → List Step → Bool
  | _, [] => true
  | w, .generate clock reportTypeArg o :: rest =>
    w.idle && sequential toUpperCase typeError
      (w.step toUpperCase typeError (.generate clock reportTypeArg o)) rest
  | w, .answer k clock o :: rest =>
    sequential toUpperCase typeError (w.step toUpperCase typeError (.answer k clock o)) rest
  | w, .timer k clock :: rest =>
    sequential toUpperCase typeError (w.step toUpperCase typeError (.timer k clock)) rest

/-- The page as mounted: nothing is shown yet and no job has been started. -/
def World.mounted (st : PageState) : World :=
  { page := { st with reportStatus := none }, sessions := [] }

/-- The invariant of a job status on the page: a status `completed` shows `100%`. -/
def statusInvariant (st : PageState) : Prop :=
  st.shownStatus = some "completed" → st.shownProgress = some "100%"

/-- Two reports started one after the other, both accepted by the service; the first
completes, then the second reports progress 40. -/
def twoJobs : List Step :=
  [.generate (fixedClock 0) (some "performance") (.resolved (.object (some "job-1"))),
   .generate (fixedClock 0) (some "endorsement") (.resolved (.object (some "job-2"))),
   .answer 0 (fixedClock 0) (.resolved (mkStatus "completed" 100)),
   .answer 1 (fixedClock 0) (.resolved (mkStatus "processing" 40))]

/-- One report, accepted by the service and polled to completion. -/
def oneJob : List Step :=
  [.generate (fixedClock 0) (some "performance") (.resolved (.object (some "job-1"))),
   .answer 0 (fixedClock 0) (.resolved (mkStatus "processing" 40)),
   .answer 0 (fixedClock 0) (.resolved (mkStatus "completed" 100))]

/-- The invariant of the page while reports are started one at a time: a shown status
`completed` shows `100%`; while a session can still run a callback the shown status is
not `completed`; and only the session started last can still run a callback. -/
def World.Inv (w : World) : Prop :=
  statusInvariant w.page ∧
  (w.idle = false → w.page.shownStatus ≠ some "completed") ∧
  (∀ i s, w.sessions[i]? = some s → s.active = true → i + 1 = w.sessions.length)

/-! ## Raising callbacks, and the two modules side by side -/

/-- Callbacks whose `onComplete` raises an error of message `x`; the other two return. -/
def completeRaises (x : String) : Callbacks :=
  { onProgress := some fun _ => .returned
    onComplete := some fun _ => .raised (some x)
    onError := some fun _ => .returned }

/-- Callbacks whose `onProgress` raises an error of message `x`; the other two return. -/
def progressRaises (x : String) : Callbacks :=
  { onProgress := some fun _ => .raised (some x)
    onComplete := some fun _ => .returned
    onError := some fun _ => .returned }

/-- Callbacks whose `onError` raises an error of message `x` when it is given `arg`, and
returns otherwise; the other two return. -/
def errorRaisesOn (arg : Option String) (x : String) : Callbacks :=
  { onProgress := some fun _ => .returned
    onComplete := some fun _ => .returned
    onError := some fun a => if a = arg then .raised (some x) else .returned }

/-- A query outcome on which the two modules agree: a `failed` status carries a non-empty
`error`, and a failed query carries a non-empty message. -/
def Outcome.wellFormed : Outcome → Bool
  | .resolved s => if s.status = some "failed" then truthy s.error else true
  | .rejected message => message != ""

/-! ## The achievements feed -/

/-- A student as `getSampleAchievements` reads it: the `id` and the `username`. -/
structure Student where
  id : JsId
  username : String
  deriving DecidableEq, Repr

/-- An entry of `detailedEndorsements`. -/
structure Endorsement where
  peerId : JsId
  peerName : String
  score : Nat
  timestamp : String
  deriving DecidableEq, Repr

/-- An item of the feed. The number `0.7 + i * 0.1` that `peerHistory` stores for the
endorser of index `i` is kept as `i`; `peerHistory` is kept as the list of its
assignments. -/
structure Achievement where
  id : JsId
  user : String
  userId : JsId
  title : String
  description : String
  progress : Nat
  endorsements : Int
  endorsedByUser : Bool
  category : String
  detailedEndorsements : List Endorsement
  peerHistory : List (JsId × Nat)
  deriving DecidableEq, Repr

/-- An entry of `achievementTemplates`. -/
structure Template where
  title : String
  description : String
  category : String
  progress : Nat
  deriving DecidableEq, Repr

/-- The array `achievementTemplates` of `getSampleAchievements`. -/
def achievementTemplates : List Template :=
  [ { title := "AI Research Project"
      description := "Completed a comprehensive research project on natural language processing and machine learning."
      category := "research", progress := 100 },
    { title := "Web Development Portfolio"
      description := "Built a full-stack web application using React, Node.js, and MongoDB."
      category := "development", progress := 90 },
    { title := "Hackathon Winner 2025"
      description := "Led a team that won first place in the 2025 National Tech Innovation Hackathon."
      category := "competition", progress := 100 },
    { title := "Mobile App Development"
      description := "Created a cross-platform mobile application using React Native."
      category := "development", progress := 85 },
    { title := "Research Paper Publication"
      description := "Published a paper in an international computer science journal."
      category := "research", progress := 100 } ]

/-- The achievement that `getSampleAchievements` builds for the student of index `index`;
`dateDaysAgo i` is the date string of `Date.now() - i * 86400000`. -/
def sampleAchievement (dateDaysAgo : Nat → String) (students : List Student)
    (index : Nat) (student : Student) : Achievement :=
  let template := achievementTemplates.getD (index % achievementTemplates.length)
    { title := "", description := "", category := "", progress := 0 }
  let endorsers := (students.filter fun s => s.id != student.id).take 3
  { id := student.id
    user := student.username
    userId := student.id
    title := template.title
    description := template.description
    progress := template.progress
    endorsements := endorsers.length
    endorsedByUser := false
    category := template.category
    detailedEndorsements := endorsers.enum.map fun p =>
      { peerId := p.2.id, peerName := p.2.username, score := 4 + p.1 % 2,
        timestamp := dateDaysAgo p.1 }
    peerHistory := endorsers.enum.map fun p => (p.2.id, p.1) }

/-- The function `getSampleAchievements`. -/
def getSampleAchievements (dateDaysAgo : Nat → String) (students : List Student) :
    List Achievement :=
  if students.length = 0 then []
  else (students.take 5).enum.map fun p => sampleAchievement dateDaysAgo students p.1 p.2

/-- The entry that `handleEndorse` pushes for the user; `today` is
`new Date().toISOString().split('T')[0]`. -/
def userEndorsement (currentUser today : String) : Endorsement :=
  { peerId := .str "currentUser", peerName := currentUser, score := 5, timestamp := today }

/-- The function that `handleEndorse` maps over the feed. -/
def handleEndorseItem (currentUser today : String) (achievementId : JsId)
    (item : Achievement) : Achievement :=
  if item.id = achievementId then
    let isCurrentlyEndorsed := item.endorsedByUser
    let newEndorsementCount :=
      if isCurrentlyEndorsed then item.endorsements - 1 else item.endorsements + 1
    let updatedEndorsements :=
      if isCurrentlyEndorsed then
        item.detailedEndorsements.filter fun e => e.peerId != JsId.str "currentUser"
      else item.detailedEndorsements ++ [userEndorsement currentUser today]
    { item with
      endorsements := newEndorsementCount
      endorsedByUser := !isCurrentlyEndorsed
      detailedEndorsements := updatedEndorsements }
  else item

/-- The function `handleEndorse`, as the new feed computed from the previous one;
`currentUser` is the prop of the page and `today` the date read by the call. -/
def handleEndorse (currentUser today : String) (achievementId : JsId)
    (prevFeed : List Achievement) : List Achievement :=
  prevFeed.map (handleEndorseItem currentUser today achievementId)

/-- A call of `handleEndorse` with what it reads from its surroundings. -/
structure EndorseCall where
  achievementId : JsId
  currentUser : String
  today : String
  deriving DecidableEq, Repr

/-- The feed after a sequence of calls of `handleEndorse`. -/
def endorseAll (feed : List Achievement) (calls : List EndorseCall) : List Achievement :=
  calls.foldl (fun f c => handleEndorse c.currentUser c.today c.achievementId f) feed

/-- The number of entries of an item whose `peerId` is `currentUser`. -/
def userEntries (item : Achievement) : Nat :=
  (item.detailedEndorsements.filter fun e => e.peerId == JsId.str "currentUser").length

/-- An item as `getSampleAchievements` produces it: not endorsed by the user, counting
its entries, none of which is the user's. -/
def Pristine (orig : Achievement) : Prop :=
  orig.endorsedByUser = false ∧
  orig.endorsements = orig.detailedEndorsements.length ∧
  ∀ e ∈ orig.detailedEndorsements, e.peerId ≠ JsId.str "currentUser"

/-- An item with the user's endorsement added. -/
def endorsedVersion (currentUser today : String) (orig : Achievement) : Achievement :=
  { orig with
    endorsements := orig.endorsements + 1
    endorsedByUser := true
    detailedEndorsements := orig.detailedEndorsements ++ [userEndorsement currentUser today] }

/-- What an item of the feed can become: it is the produced item, or the produced item
with the user's endorsement added. -/
def Reached (orig item : Achievement) : Prop :=
  Pristine orig ∧ (item = orig ∨ ∃ n d, item = endorsedVersion n d orig)

/-- The students of `getFallbackStudents`. -/
def getFallbackStudents : List Student :=
  [ { id := .num 1, username := "john_doe" }, { id := .num 2, username := "jane_smith" },
    { id := .num 3, username := "mike_johnson" }, { id := .num 4, username := "sarah_wilson" },
    { id := .num 5, username := "alex_brown" } ]

/-- A calendar that gives the same date for every day. -/
def fixedDate (_ : Nat) : String := "2025-01-01"

/-- Three calls: the first achievement is endorsed, the second too, then the first is
endorsed again, a day later. -/
def sampleCalls : List EndorseCall :=
  [ { achievementId := .num 1, currentUser := "Current User", today := "2025-01-01" },
    { achievementId := .num 2, currentUser := "Current User", today := "2025-01-01" },
    { achievementId := .num 1, currentUser := "Current User", today := "2025-01-02" } ]

/-- An endorsed item after two calls of `handleEndorse` for it: the first call filters the
user's entry out, the second pushes an entry with its own name and date; every other
field is as before. -/
def reEndorsed (currentUser today : String) (item : Achievement) : Achievement :=
  { item with
    detailedEndorsements :=
      (item.detailedEndorsements.filter fun e => e.peerId != JsId.str "currentUser")
        ++ [userEndorsement currentUser today] }

/-- One call: the first achievement is endorsed on 2025-01-01. -/
def endorsedOnce : List EndorseCall :=
  [ { achievementId := .num 1, currentUser := "Current User", today := "2025-01-01" } ]

/-- Two calls for the first achievement, both on 2025-01-02. -/
def twiceNextDay : List EndorseCall :=
  [ { achievementId := .num 1, currentUser := "Current User", today := "2025-01-02" },
    { achievementId := .num 1, currentUser := "Current User", today := "2025-01-02" } ]

/-! ## One run of `poll` -/

theorem callProgress_quiet {cb : Callbacks} (hq : cb.Quiet) (s : Status) :
    (callProgress cb s).2 = .returned := by
  unfold callProgress
  cases h : cb.onProgress with
  | none => rfl
  | some f => exact hq.1 f h s

theorem callComplete_quiet {cb : Callbacks} (hq : cb.Quiet) (s : Status) :
    (callComplete cb s).2 = .returned := by
  unfold callComplete
  cases h : cb.onComplete with
  | none => rfl
  | some f => exact hq.2.1 f h s

theorem callError_quiet {cb : Callbacks} (hq : cb.Quiet) (a : Option String) :
    (callError cb a).2 = .returned := by
  unfold callError
  cases h : cb.onError with
  | none => rfl
  | some f => exact hq.2.2 f h a

theorem callComplete_events {cb : Callbacks} (hc : cb.onComplete.isSome = true) (s : Status) :
    (callComplete cb s).1 = [.complete s] := by
  unfold callComplete
  cases h : cb.onComplete with
  | none => simp [h] at hc
  | some f => rfl

theorem callError_events {cb : Callbacks} (he : cb.onError.isSome = true) (a : Option String) :
    (callError cb a).1 = [.error a] := by
  unfold callError
  cases h : cb.onError with
  | none => simp [h] at he
  | some f => rfl

theorem callProgress_events {cb : Callbacks} (hp : cb.onProgress.isSome = true) (s : Status) :
    (callProgress cb s).1 = [.progress s] := by
  unfold callProgress
  cases h : cb.onProgress with
  | none => simp [h] at hp
  | some f => rfl

/-- The events of `if (onProgress) onProgress(status)` are at most one `progress`. -/
theorem callProgress_shape (cb : Callbacks) (s : Status) :
    (callProgress cb s).1 = [] ∨ (callProgress cb s).1 = [.progress s] := by
  unfold callProgress
  cases cb.onProgress with
  | none => exact Or.inl rfl
  | some f => exact Or.inr rfl

theorem getReportStatus_resolved (m : Module) (s : Status) :
    getReportStatus m (.resolved s) = .resolved s := by
  cases m <;> rfl

/-- A non-terminal status: `onProgress`, then the next poll is scheduled. -/
theorem poll_nonterminal (m : Module) {cb : Callbacks} (hq : cb.Quiet) (t : String) (i : Nat)
    {s : Status} (hs : s.isTerminal = false) :
    poll m cb t i (.resolved s)
      = (.query t :: ((callProgress cb s).1 ++ [.schedule i]), true) := by
  have h1 : s.status ≠ some "completed" := by
    intro h; simp [Status.isTerminal, h] at hs
  have h2 : s.status ≠ some "failed" := by
    intro h; simp [Status.isTerminal, h] at hs
  have hp := callProgress_quiet hq s
  rcases hcp : callProgress cb s with ⟨e1, r⟩
  rw [hcp] at hp
  simp only at hp
  subst hp
  simp [poll, tryBlock, getReportStatus_resolved, hcp, h1, h2]

/-- A completed status: `onProgress`, then `onComplete`, and nothing is scheduled. -/
theorem poll_completed (m : Module) {cb : Callbacks} (hq : cb.Quiet) (t : String) (i : Nat)
    {s : Status} (hs : s.status = some "completed") :
    poll m cb t i (.resolved s)
      = (.query t :: ((callProgress cb s).1 ++ (callComplete cb s).1), false) := by
  have hp := callProgress_quiet hq s
  have hc := callComplete_quiet hq s
  rcases hcp : callProgress cb s with ⟨e1, r⟩
  rcases hcc : callComplete cb s with ⟨e2, r2⟩
  rw [hcp] at hp
  rw [hcc] at hc
  simp only at hp hc
  subst hp
  subst hc
  simp [poll, tryBlock, getReportStatus_resolved, hcp, hcc, hs]

/-- A failed status: `onProgress`, then `onError`, and nothing is scheduled. -/
theorem poll_failed (m : Module) {cb : Callbacks} (hq : cb.Quiet) (t : String) (i : Nat)
    {s : Status} (hs : s.status = some "failed") :
    poll m cb t i (.resolved s)
      = (.query t :: ((callProgress cb s).1 ++ (callError cb (failedArg m s.error)).1),
          false) := by
  have hp := callProgress_quiet hq s
  have hc := callError_quiet hq (failedArg m s.error)
  rcases hcp : callProgress cb s with ⟨e1, r⟩
  rcases hcc : callError cb (failedArg m s.error) with ⟨e2, r2⟩
  rw [hcp] at hp
  rw [hcc] at hc
  simp only at hp hc
  subst hp
  subst hc
  have hne : s.status ≠ some "completed" := by rw [hs]; decide
  simp [poll, tryBlock, getReportStatus_resolved, hcp, hcc, hs]

/-- A failed query: `onError` with the message of the rejection of `getReportStatus`. -/
theorem poll_rejected (m : Module) (cb : Callbacks) (t : String) (i : Nat)
    {o : Outcome} {msg : String} (ho : getReportStatus m o = .rejected msg) :
    poll m cb t i o = (.query t :: (callError cb (some msg)).1, false) := by
  simp [poll, tryBlock, ho]

/-- A run of `poll` schedules a further run only for a non-terminal outcome. -/
theorem poll_terminal_stops (m : Module) (cb : Callbacks) (t : String) (i : Nat)
    {o : Outcome} (ho : o.isTerminal = true) : (poll m cb t i o).2 = false := by
  cases o with
  | rejected msg =>
    cases m <;> simp [poll, tryBlock, getReportStatus]
  | resolved s =>
    simp only [Outcome.isTerminal, Status.isTerminal, Bool.or_eq_true, decide_eq_true_eq] at ho
    simp only [poll, tryBlock, getReportStatus_resolved]
    rcases callProgress cb s with ⟨e1, r⟩
    cases r with
    | raised x => rfl
    | returned =>
      rcases ho with h | h
      · simp only [h, if_true]
        rcases callComplete cb s with ⟨e2, r2⟩
        cases r2 <;> rfl
      · have hne : ¬ (some "failed" : Option String) = some "completed" := by decide
        simp only [h, hne, if_true, if_false]
        rcases callError cb (failedArg m (Status.error s)) with ⟨e2, r2⟩
        cases r2 <;> rfl

/-! ## Reading the trace of a session -/

theorem callbacks_append (a b : List Event) : callbacks (a ++ b) = callbacks a ++ callbacks b := by
  simp [callbacks]

theorem queryCount_append (a b : List Event) : queryCount (a ++ b) = queryCount a + queryCount b := by
  simp [queryCount]

theorem progressArgs_append (a b : List Event) :
    progressArgs (a ++ b) = progressArgs a ++ progressArgs b := by
  induction a with
  | nil => rfl
  | cons e a ih => cases e <;> simp [progressArgs, ih]

theorem completeArgs_append (a b : List Event) :
    completeArgs (a ++ b) = completeArgs a ++ completeArgs b := by
  induction a with
  | nil => rfl
  | cons e a ih => cases e <;> simp [completeArgs, ih]

theorem errorArgs_append (a b : List Event) :
    errorArgs (a ++ b) = errorArgs a ++ errorArgs b := by
  induction a with
  | nil => rfl
  | cons e a ih => cases e <;> simp [errorArgs, ih]

/-- A terminal outcome ends the session: the outcomes after it are never queried. -/
theorem pollReportStatus_cons_terminal (m : Module) (cb : Callbacks) (t : String) (i : Nat)
    {o : Outcome} (ho : o.isTerminal = true) (rest : List Outcome) :
    pollReportStatus m cb t i (o :: rest) = (poll m cb t i o).1 := by
  have h := poll_terminal_stops m cb t i ho
  rcases hp : poll m cb t i o with ⟨ev, b⟩
  rw [hp] at h
  simp only at h
  subst h
  simp [pollReportStatus, hp]

/-- A non-terminal status is reported to `onProgress` and the session goes on. -/
theorem pollReportStatus_cons_nonterminal (m : Module) {cb : Callbacks} (hq : cb.Quiet)
    (t : String) (i : Nat) {s : Status} (hs : s.isTerminal = false) (rest : List Outcome) :
    pollReportStatus m cb t i (.resolved s :: rest)
      = (.query t :: ((callProgress cb s).1 ++ [.schedule i]))
          ++ pollReportStatus m cb t i rest := by
  simp [pollReportStatus, poll_nonterminal m hq t i hs]

/-- An outcome that is not terminal is a status that is not terminal. -/
theorem Outcome.eq_resolved_of_nonterminal {o : Outcome} (ho : o.isTerminal = false) :
    ∃ s, o = .resolved s ∧ s.isTerminal = false := by
  cases o with
  | rejected msg => simp [Outcome.isTerminal] at ho
  | resolved s => exact ⟨s, rfl, ho⟩

theorem pollReportStatus_append (m : Module) {cb : Callbacks} (hq : cb.Quiet)
    (t : String) (i : Nat) (pre : List Outcome) (hpre : ∀ o ∈ pre, o.isTerminal = false)
    (xs : List Outcome) :
    pollReportStatus m cb t i (pre ++ xs)
      = prefixTrace cb t i pre ++ pollReportStatus m cb t i xs := by
  induction pre with
  | nil => rfl
  | cons o pre ih =>
    obtain ⟨s, rfl, hs⟩ := Outcome.eq_resolved_of_nonterminal (hpre o (List.mem_cons_self _ _))
    have ih2 := ih (fun o ho => hpre o (List.mem_cons_of_mem _ ho))
    rw [List.cons_append, pollReportStatus_cons_nonterminal m hq t i hs, ih2]
    simp [prefixTrace]

theorem prefixTrace_completeArgs (cb : Callbacks) (t : String) (i : Nat) (pre : List Outcome) :
    completeArgs (prefixTrace cb t i pre) = [] := by
  induction pre with
  | nil => rfl
  | cons o pre ih =>
    cases o with
    | rejected msg => simpa [prefixTrace] using ih
    | resolved s =>
      rcases callProgress_shape cb s with h | h <;>
        simp [prefixTrace, h, completeArgs, completeArgs_append, ih]

theorem prefixTrace_errorArgs (cb : Callbacks) (t : String) (i : Nat) (pre : List Outcome) :
    errorArgs (prefixTrace cb t i pre) = [] := by
  induction pre with
  | nil => rfl
  | cons o pre ih =>
    cases o with
    | rejected msg => simpa [prefixTrace] using ih
    | resolved s =>
      rcases callProgress_shape cb s with h | h <;>
        simp [prefixTrace, h, errorArgs, errorArgs_append, ih]

theorem prefixTrace_queryCount (cb : Callbacks) (t : String) (i : Nat) (pre : List Outcome)
    (hpre : ∀ o ∈ pre, o.isTerminal = false) :
    queryCount (prefixTrace cb t i pre) = pre.length := by
  induction pre with
  | nil => rfl
  | cons o pre ih =>
    obtain ⟨s, rfl, _⟩ := Outcome.eq_resolved_of_nonterminal (hpre o (List.mem_cons_self _ _))
    have ih2 := ih (fun o ho => hpre o (List.mem_cons_of_mem _ ho))
    rcases callProgress_shape cb s with h | h <;>
      simp [prefixTrace, h, queryCount, Event.isQuery] at ih2 ⊢ <;> omega

theorem prefixTrace_terminal (cb : Callbacks) (t : String) (i : Nat) (pre : List Outcome) :
    ∀ x ∈ callbacks (prefixTrace cb t i pre), x.isTerminal = false := by
  induction pre with
  | nil => intro x hx; simp [prefixTrace, callbacks] at hx
  | cons o pre ih =>
    cases o with
    | rejected msg => simpa [prefixTrace] using ih
    | resolved s =>
      intro x hx
      have hsplit : prefixTrace cb t i (.resolved s :: pre)
          = (([.query t] ++ (callProgress cb s).1) ++ [.schedule i])
              ++ prefixTrace cb t i pre := by
        simp [prefixTrace]
      rw [hsplit, callbacks_append, callbacks_append, callbacks_append] at hx
      simp only [List.mem_append] at hx
      rcases hx with ((hx | hx) | hx) | hx
      · simp [callbacks, Event.isCallback] at hx
      · rcases callProgress_shape cb s with h | h
        · simp [h, callbacks] at hx
        · simp only [h, callbacks, List.mem_filter, List.mem_singleton] at hx
          rw [hx.1]
          rfl
      · simp [callbacks, Event.isCallback] at hx
      · exact ih x hx

/-- Every list of outcomes that contains a terminal one splits at the first terminal one. -/
theorem exists_first_terminal (outcomes : List Outcome)
    (ht : ∃ o ∈ outcomes, o.isTerminal = true) :
    ∃ pre o rest, outcomes = pre ++ o :: rest ∧ (∀ x ∈ pre, x.isTerminal = false) ∧
      o.isTerminal = true := by
  induction outcomes with
  | nil => obtain ⟨o, ho, _⟩ := ht; simp at ho
  | cons a l ih =>
    by_cases ha : a.isTerminal = true
    · exact ⟨[], a, l, rfl, by simp, ha⟩
    · have ht2 : ∃ o ∈ l, o.isTerminal = true := by
        obtain ⟨o, ho, hot⟩ := ht
        rcases List.mem_cons.1 ho with rfl | ho
        · exact absurd hot ha
        · exact ⟨o, ho, hot⟩
      obtain ⟨pre, o, rest, rfl, hpre, hot⟩ := ih ht2
      refine ⟨a :: pre, o, rest, rfl, ?_, hot⟩
      intro x hx
      rcases List.mem_cons.1 hx with rfl | hx
      · simpa using ha
      · exact hpre x hx

/-- The run of `poll` on a terminal outcome, for callbacks that do not raise: the query,
at most one `onProgress`, then exactly one of `onComplete` and `onError`. -/
theorem poll_terminal_shape (m : Module) {cb : Callbacks} (hq : cb.Quiet)
    (hc : cb.onComplete.isSome = true) (he : cb.onError.isSome = true)
    (t : String) (i : Nat) {o : Outcome} (ho : o.isTerminal = true) :
    ∃ cp e, (poll m cb t i o).1 = .query t :: (cp ++ [e]) ∧
      (cp = [] ∨ ∃ s, cp = [.progress s]) ∧ e.isTerminal = true := by
  cases o with
  | rejected msg =>
    have hr : ∃ msg2, getReportStatus m (.rejected msg) = .rejected msg2 := by
      cases m
      · exact ⟨_, rfl⟩
      · exact ⟨_, rfl⟩
    obtain ⟨msg2, hr⟩ := hr
    refine ⟨[], .error (some msg2), ?_, Or.inl rfl, rfl⟩
    rw [poll_rejected m cb t i hr, callError_events he]
    rfl
  | resolved s =>
    have hshape : (callProgress cb s).1 = [] ∨ ∃ s2, (callProgress cb s).1 = [.progress s2] := by
      rcases callProgress_shape cb s with h | h
      · exact Or.inl h
      · exact Or.inr ⟨s, h⟩
    simp only [Outcome.isTerminal, Status.isTerminal, Bool.or_eq_true, decide_eq_true_eq] at ho
    rcases ho with h | h
    · refine ⟨(callProgress cb s).1, .complete s, ?_, hshape, rfl⟩
      rw [poll_completed m hq t i h, callComplete_events hc]
    · refine ⟨(callProgress cb s).1, .error (failedArg m s.error), ?_, hshape, rfl⟩
      rw [poll_failed m hq t i h, callError_events he]

/-- The recording callbacks never raise. -/
theorem recorder_quiet : recorder.Quiet := by
  refine ⟨?_, ?_, ?_⟩ <;> intro f hf a <;> simp only [recorder, Option.some.injEq] at hf <;>
    subst hf <;> rfl

/-- C1. For callbacks that are supplied and do not raise, and every finite sequence of
query outcomes that contains a terminal one (a status `completed`, a status `failed`, or
a failed query), a poll session invokes `onComplete` and `onError` exactly once in total,
and that invocation is the last callback invocation of the session. -/
theorem C1_terminal_callback_once_and_last (m : Module) (cb : Callbacks) (taskId : String)
    (interval : Nat) (outcomes : List Outcome) (hq : cb.Quiet)
    (hc : cb.onComplete.isSome = true) (he : cb.onError.isSome = true)
    (ht : ∃ o ∈ outcomes, o.isTerminal = true) :
    (completeArgs (pollReportStatus m cb taskId interval outcomes)).length
        + (errorArgs (pollReportStatus m cb taskId interval outcomes)).length = 1 ∧
      ∃ e, (callbacks (pollReportStatus m cb taskId interval outcomes)).getLast? = some e ∧
        e.isTerminal = true := by
  obtain ⟨pre, o, rest, rfl, hpre, hot⟩ := exists_first_terminal outcomes ht
  obtain ⟨cp, e, hpoll, hcp, het⟩ := poll_terminal_shape m hq hc he taskId interval hot
  rw [pollReportStatus_append m hq taskId interval pre hpre,
    pollReportStatus_cons_terminal m cb taskId interval hot, hpoll]
  refine ⟨?_, e, ?_, het⟩
  · rw [completeArgs_append, errorArgs_append, prefixTrace_completeArgs,
      prefixTrace_errorArgs]
    rcases hcp with rfl | ⟨s, rfl⟩ <;> cases e <;>
      simp [completeArgs, errorArgs, Event.isTerminal] at het ⊢
  · rw [callbacks_append]
    have : callbacks (.query taskId :: (cp ++ [e])) = callbacks cp ++ [e] := by
      cases e <;> simp [callbacks, Event.isCallback, Event.isTerminal] at het ⊢
    rw [this, ← List.append_assoc, List.getLast?_append]
    simp

/-- A witness of C1: a session that sees `processing` and then `completed`. -/
theorem C1_terminal_callback_once_and_last_witness :
    (completeArgs (pollReportStatus .configApi recorder "job-1" 3000
        [.resolved (mkStatus "processing" 50), .resolved (mkStatus "completed" 100)])).length
        + (errorArgs (pollReportStatus .configApi recorder "job-1" 3000
        [.resolved (mkStatus "processing" 50), .resolved (mkStatus "completed" 100)])).length
        = 1 ∧
      ∃ e, (callbacks (pollReportStatus .configApi recorder "job-1" 3000
        [.resolved (mkStatus "processing" 50),
          .resolved (mkStatus "completed" 100)])).getLast? = some e ∧
        e.isTerminal = true :=
  C1_terminal_callback_once_and_last .configApi recorder "job-1" 3000
    [.resolved (mkStatus "processing" 50), .resolved (mkStatus "completed" 100)]
    recorder_quiet rfl rfl
    ⟨.resolved (mkStatus "completed" 100), by simp, by decide⟩

theorem queryCount_terminal_poll (t : String) (cp : List Event) (e : Event)
    (hcp : cp = [] ∨ ∃ s, cp = [.progress s]) (he : e.isTerminal = true) :
    queryCount (.query t :: (cp ++ [e])) = 1 := by
  rcases hcp with rfl | ⟨s, rfl⟩ <;> cases e <;>
    simp [queryCount, Event.isQuery, Event.isTerminal] at he ⊢

/-- In a session that reaches a `completed` status, `onComplete` is invoked with it, once. -/
theorem completeArgs_of_completed (m : Module) {cb : Callbacks} (hq : cb.Quiet)
    (hc : cb.onComplete.isSome = true) (t : String) (i : Nat) (pre : List Outcome)
    (hpre : ∀ o ∈ pre, o.isTerminal = false) {s : Status} (hs : s.status = some "completed")
    (rest : List Outcome) :
    completeArgs (pollReportStatus m cb t i (pre ++ .resolved s :: rest)) = [s] := by
  have hot : (Outcome.resolved s).isTerminal = true := by
    simp [Outcome.isTerminal, Status.isTerminal, hs]
  rw [pollReportStatus_append m hq t i pre hpre, pollReportStatus_cons_terminal m cb t i hot,
    poll_completed m hq t i hs, callComplete_events hc, completeArgs_append,
    prefixTrace_completeArgs]
  rcases callProgress_shape cb s with h | h <;> simp [h, completeArgs]

/-- The statement of C2 fails: when `onComplete` raises on the `completed` status, the
`catch` clause invokes `onError` with the message of the exception, so `onError` is
invoked in a session that saw a `completed` status. -/
theorem C2_counterexample :
    completeArgs (pollReportStatus .configApi (completeRaises "boom") "job-1" 3000
        [.resolved (mkStatus "completed" 100)]) = [mkStatus "completed" 100] ∧
    errorArgs (pollReportStatus .configApi (completeRaises "boom") "job-1" 3000
        [.resolved (mkStatus "completed" 100)]) = [some "boom"] ∧
    errorArgs (pollReportStatus .configApi (completeRaises "boom") "job-1" 3000
        [.resolved (mkStatus "completed" 100)]) ≠ [] := by
  decide

/-- C2, amended. In every poll session whose callbacks do not raise and to which
`onComplete` was passed, and in which a status query returns a status whose `status` is
`completed` (after any non-terminal observations): `onComplete` is invoked exactly once,
with that very status; `onError` is never invoked; the query that returned it is the last
one, and the trace ends with that invocation, so no further poll is scheduled. -/
theorem C2_completed_fires_onComplete_once (m : Module) (cb : Callbacks) (taskId : String)
    (interval : Nat) (pre : List Outcome) (s : Status) (rest : List Outcome)
    (hq : cb.Quiet) (hc : cb.onComplete.isSome = true)
    (hpre : ∀ o ∈ pre, o.isTerminal = false) (hs : s.status = some "completed") :
    completeArgs (pollReportStatus m cb taskId interval (pre ++ .resolved s :: rest)) = [s] ∧
      errorArgs (pollReportStatus m cb taskId interval (pre ++ .resolved s :: rest)) = [] ∧
      queryCount (pollReportStatus m cb taskId interval (pre ++ .resolved s :: rest))
        = pre.length + 1 ∧
      (pollReportStatus m cb taskId interval (pre ++ .resolved s :: rest)).getLast?
        = some (.complete s) := by
  have hot : (Outcome.resolved s).isTerminal = true := by
    simp [Outcome.isTerminal, Status.isTerminal, hs]
  rw [pollReportStatus_append m hq taskId interval pre hpre,
    pollReportStatus_cons_terminal m cb taskId interval hot,
    poll_completed m hq taskId interval hs, callComplete_events hc]
  refine ⟨?_, ?_, ?_, ?_⟩
  · rw [completeArgs_append, prefixTrace_completeArgs]
    rcases callProgress_shape cb s with h | h <;> simp [h, completeArgs]
  · rw [errorArgs_append, prefixTrace_errorArgs]
    rcases callProgress_shape cb s with h | h <;> simp [h, errorArgs]
  · rw [queryCount_append, prefixTrace_queryCount cb taskId interval pre hpre]
    rcases callProgress_shape cb s with h | h <;> simp [h, queryCount, Event.isQuery]
  · rw [← List.cons_append, ← List.append_assoc, List.getLast?_append]
    simp

/-- A witness of C2: `processing` at 40, then `completed`, then an outcome never queried. -/
theorem C2_completed_fires_onComplete_once_witness :
    completeArgs (pollReportStatus .configApi recorder "job-1" 3000
        ([.resolved (mkStatus "processing" 40)] ++ .resolved (mkStatus "completed" 100)
          :: [.rejected "late"])) = [mkStatus "completed" 100] ∧
      errorArgs (pollReportStatus .configApi recorder "job-1" 3000
        ([.resolved (mkStatus "processing" 40)] ++ .resolved (mkStatus "completed" 100)
          :: [.rejected "late"])) = [] ∧
      queryCount (pollReportStatus .configApi recorder "job-1" 3000
        ([.resolved (mkStatus "processing" 40)] ++ .resolved (mkStatus "completed" 100)
          :: [.rejected "late"])) = [Outcome.resolved (mkStatus "processing" 40)].length + 1 ∧
      (pollReportStatus .configApi recorder "job-1" 3000
        ([.resolved (mkStatus "processing" 40)] ++ .resolved (mkStatus "completed" 100)
          :: [.rejected "late"])).getLast? = some (.complete (mkStatus "completed" 100)) :=
  C2_completed_fires_onComplete_once .configApi recorder "job-1" 3000
    [.resolved (mkStatus "processing" 40)] (mkStatus "completed" 100) [.rejected "late"]
    recorder_quiet rfl (by decide) rfl

/-- The statement of C3 fails in two ways. In `api/config.js`, for a `failed` status whose
`error` is the empty string, `onError` receives `'Report generation failed'`, not
`status.error`. And in `config/api.js`, when `onError` raises on the error
`quota exceeded` of a `failed` status, the `catch` clause invokes it a second time, so it
is not invoked exactly once. -/
theorem C3_counterexample :
    errorArgs (pollReportStatus .apiConfig recorder "job-1" 2000
        [.resolved (mkFailed (some ""))])
      = [some "Report generation failed"] ∧
    errorArgs (pollReportStatus .apiConfig recorder "job-1" 2000
        [.resolved (mkFailed (some ""))])
      ≠ [(some "" : Option String)] ∧
    errorArgs (pollReportStatus .configApi (errorRaisesOn (some "quota exceeded") "boom")
        "job-1" 2000 [.resolved (mkFailed (some "quota exceeded"))])
      = [some "quota exceeded", some "boom"] := by
  decide

/-- C3, amended. In every poll session whose callbacks do not raise and to which `onError`
was passed, and in which a status query returns a status whose `status` is `failed`
(after any non-terminal observations): `onError` is invoked exactly once, `onComplete`
never, and the query that returned it is the last one. The argument of
`onError` is `status.error` in `config/api.js` for every value of it, and in
`api/config.js` whenever `status.error` is a non-empty string (such as
`"quota exceeded"`); in `api/config.js` an empty or absent `status.error` is replaced by
`'Report generation failed'`. -/
theorem C3_failed_fires_onError_once (m : Module) (cb : Callbacks) (taskId : String)
    (interval : Nat) (pre : List Outcome) (s : Status) (rest : List Outcome)
    (hq : cb.Quiet) (he : cb.onError.isSome = true)
    (hpre : ∀ o ∈ pre, o.isTerminal = false) (hs : s.status = some "failed") :
    (errorArgs (pollReportStatus m cb taskId interval (pre ++ .resolved s :: rest))
        = [if m = .configApi ∨ truthy s.error = true then s.error
           else some "Report generation failed"]) ∧
      completeArgs (pollReportStatus m cb taskId interval (pre ++ .resolved s :: rest)) = [] ∧
      queryCount (pollReportStatus m cb taskId interval (pre ++ .resolved s :: rest))
        = pre.length + 1 ∧
      (pollReportStatus m cb taskId interval (pre ++ .resolved s :: rest)).getLast?
        = some (.error (if m = .configApi ∨ truthy s.error = true then s.error
           else some "Report generation failed")) := by
  have hot : (Outcome.resolved s).isTerminal = true := by
    simp [Outcome.isTerminal, Status.isTerminal, hs]
  have harg : failedArg m s.error
      = if m = .configApi ∨ truthy s.error = true then s.error
        else some "Report generation failed" := by
    cases m
    · simp [failedArg]
    · cases h : s.error with
      | none => simp [failedArg, orDefault, truthy]
      | some e =>
        by_cases hem : e = "" <;> simp [failedArg, orDefault, truthy, hem]
  rw [pollReportStatus_append m hq taskId interval pre hpre,
    pollReportStatus_cons_terminal m cb taskId interval hot,
    poll_failed m hq taskId interval hs, callError_events he, harg]
  refine ⟨?_, ?_, ?_, ?_⟩
  · rw [errorArgs_append, prefixTrace_errorArgs]
    rcases callProgress_shape cb s with h | h <;> simp [h, errorArgs]
  · rw [completeArgs_append, prefixTrace_completeArgs]
    rcases callProgress_shape cb s with h | h <;> simp [h, completeArgs]
  · rw [queryCount_append, prefixTrace_queryCount cb taskId interval pre hpre]
    rcases callProgress_shape cb s with h | h <;> simp [h, queryCount, Event.isQuery]
  · rw [← List.cons_append, ← List.append_assoc, List.getLast?_append]
    simp

/-- A witness of C3: the status `failed` with error `"quota exceeded"`, in `api/config.js`. -/
theorem C3_failed_fires_onError_once_witness :
    (errorArgs (pollReportStatus .apiConfig recorder "job-1" 2000
        ([] ++ .resolved (mkFailed (some "quota exceeded")) :: []))
        = [if Module.apiConfig = .configApi ∨ truthy (some "quota exceeded") = true
           then some "quota exceeded" else some "Report generation failed"]) ∧
      completeArgs (pollReportStatus .apiConfig recorder "job-1" 2000
        ([] ++ .resolved (mkFailed (some "quota exceeded")) :: [])) = [] ∧
      queryCount (pollReportStatus .apiConfig recorder "job-1" 2000
        ([] ++ .resolved (mkFailed (some "quota exceeded")) :: []))
        = ([] : List Outcome).length + 1 ∧
      (pollReportStatus .apiConfig recorder "job-1" 2000
        ([] ++ .resolved (mkFailed (some "quota exceeded")) :: [])).getLast?
        = some (.error (if Module.apiConfig = .configApi ∨ truthy (some "quota exceeded") = true
           then some "quota exceeded" else some "Report generation failed")) :=
  C3_failed_fires_onError_once .apiConfig recorder "job-1" 2000 []
    (mkFailed (some "quota exceeded")) [] recorder_quiet rfl (by simp) rfl

/-- The function `getReportStatus` rejects only when `apiRequest` rejected. -/
theorem isTerminal_of_getReportStatus_rejected {m : Module} {o : Outcome} {msg : String}
    (ho : getReportStatus m o = .rejected msg) : o.isTerminal = true := by
  cases o with
  | rejected _ => rfl
  | resolved s => simp [getReportStatus_resolved] at ho

/-- C4. In every poll session in which a status query fails, that is `getReportStatus`
rejects with an error of message `msg`, after any number of non-terminal observations and
with callbacks that do not raise, `onError` is invoked exactly once, with `msg`;
`onComplete` is never invoked; the failed query is not retried: it is the last query and
the trace ends with the invocation of `onError`. -/
theorem C4_query_failure_fires_onError_once (m : Module) (cb : Callbacks) (taskId : String)
    (interval : Nat) (pre : List Outcome) (o : Outcome) (rest : List Outcome) (msg : String)
    (hq : cb.Quiet) (he : cb.onError.isSome = true)
    (hpre : ∀ x ∈ pre, x.isTerminal = false) (ho : getReportStatus m o = .rejected msg) :
    errorArgs (pollReportStatus m cb taskId interval (pre ++ o :: rest)) = [some msg] ∧
      completeArgs (pollReportStatus m cb taskId interval (pre ++ o :: rest)) = [] ∧
      queryCount (pollReportStatus m cb taskId interval (pre ++ o :: rest))
        = pre.length + 1 ∧
      (pollReportStatus m cb taskId interval (pre ++ o :: rest)).getLast?
        = some (.error (some msg)) := by
  have hot := isTerminal_of_getReportStatus_rejected ho
  rw [pollReportStatus_append m hq taskId interval pre hpre,
    pollReportStatus_cons_terminal m cb taskId interval hot,
    poll_rejected m cb taskId interval ho, callError_events he]
  refine ⟨?_, ?_, ?_, ?_⟩
  · rw [errorArgs_append, prefixTrace_errorArgs]
    simp [errorArgs]
  · rw [completeArgs_append, prefixTrace_completeArgs]
    simp [completeArgs]
  · rw [queryCount_append, prefixTrace_queryCount cb taskId interval pre hpre]
    simp [queryCount, Event.isQuery]
  · rw [List.getLast?_append]
    simp

/-- A witness of C4: `processing` at 50, then a query that fails. -/
theorem C4_query_failure_fires_onError_once_witness :
    errorArgs (pollReportStatus .configApi recorder "job-1" 3000
        ([.resolved (mkStatus "processing" 50)] ++ .rejected "Failed to fetch"
          :: [.resolved (mkStatus "completed" 100)])) = [some "Failed to fetch"] ∧
      completeArgs (pollReportStatus .configApi recorder "job-1" 3000
        ([.resolved (mkStatus "processing" 50)] ++ .rejected "Failed to fetch"
          :: [.resolved (mkStatus "completed" 100)])) = [] ∧
      queryCount (pollReportStatus .configApi recorder "job-1" 3000
        ([.resolved (mkStatus "processing" 50)] ++ .rejected "Failed to fetch"
          :: [.resolved (mkStatus "completed" 100)]))
        = [Outcome.resolved (mkStatus "processing" 50)].length + 1 ∧
      (pollReportStatus .configApi recorder "job-1" 3000
        ([.resolved (mkStatus "processing" 50)] ++ .rejected "Failed to fetch"
          :: [.resolved (mkStatus "completed" 100)])).getLast?
        = some (.error (some "Failed to fetch")) :=
  C4_query_failure_fires_onError_once .configApi recorder "job-1" 3000
    [.resolved (mkStatus "processing" 50)] (.rejected "Failed to fetch")
    [.resolved (mkStatus "completed" 100)] "Failed to fetch"
    recorder_quiet rfl (by decide) rfl

/-! ## What `onProgress` sees -/

/-- The statement of C5 fails in two ways. On the observations of scenario 1, with
callbacks that return, `onProgress` is invoked four times, the fourth time with the
`completed` status, not three times. And when `onProgress` raises, the session ends at
the first status: on scenario 1 `onProgress` is invoked once and `onComplete` never. -/
theorem C5_counterexample :
    progressArgs (pollReportStatus .configApi recorder "job-1" 3000 scenario1)
      = [mkStatus "queued" 0, mkStatus "processing" 40, mkStatus "processing" 80,
         mkStatus "completed" 100] ∧
    (progressArgs (pollReportStatus .configApi recorder "job-1" 3000 scenario1)).length ≠ 3 ∧
    progressArgs (pollReportStatus .configApi (progressRaises "boom") "job-1" 3000 scenario1)
      = [mkStatus "queued" 0] ∧
    completeArgs (pollReportStatus .configApi (progressRaises "boom") "job-1" 3000 scenario1)
      = [] := by
  decide

/-- For callbacks that do not raise, `onProgress` is invoked with every observed status. -/
theorem progressArgs_pollReportStatus (m : Module) {cb : Callbacks} (hq : cb.Quiet)
    (hp : cb.onProgress.isSome = true) (t : String) (i : Nat) (outcomes : List Outcome) :
    progressArgs (pollReportStatus m cb t i outcomes) = observedStatuses outcomes := by
  induction outcomes with
  | nil => rfl
  | cons o rest ih =>
    cases o with
    | rejected msg =>
      have hr : ∃ msg2, getReportStatus m (.rejected msg) = .rejected msg2 := by
        cases m
        · exact ⟨_, rfl⟩
        · exact ⟨_, rfl⟩
      obtain ⟨msg2, hr⟩ := hr
      rw [pollReportStatus_cons_terminal m cb t i (o := .rejected msg) rfl,
        poll_rejected m cb t i hr]
      rcases h : cb.onError with _ | f <;> simp [callError, h, progressArgs, observedStatuses]
    | resolved s =>
      by_cases hs : s.isTerminal = true
      · have hs2 := hs
        simp only [Status.isTerminal, Bool.or_eq_true, decide_eq_true_eq] at hs2
        rw [pollReportStatus_cons_terminal m cb t i (o := .resolved s) hs]
        rcases hs2 with h | h
        · rw [poll_completed m hq t i h, callProgress_events hp]
          rcases hc : cb.onComplete with _ | f <;>
            simp [callComplete, hc, progressArgs, observedStatuses, hs]
        · rw [poll_failed m hq t i h, callProgress_events hp]
          rcases hc : cb.onError with _ | f <;>
            simp [callError, hc, progressArgs, observedStatuses, hs]
      · have hs2 : s.isTerminal = false := by simpa using hs
        rw [pollReportStatus_cons_nonterminal m hq t i hs2, progressArgs_append, ih,
          callProgress_events hp]
        simp [progressArgs, observedStatuses, hs2]

/-- C5, amended. In every poll session whose callbacks do not raise and to which
`onProgress` was passed, `onProgress` is invoked for every status the session observes,
terminal ones included, each time with the full status snapshot: its arguments are the
statuses delivered up to and including the first terminal one. For the observations
`queued 0`, `processing 40`, `processing 80`, `completed 100` it is invoked four times,
and `onComplete`, when it was passed too, once. -/
theorem C5_onProgress_sees_every_status (m : Module) (cb : Callbacks) (taskId : String)
    (interval : Nat) (outcomes : List Outcome) (hq : cb.Quiet)
    (hp : cb.onProgress.isSome = true) :
    progressArgs (pollReportStatus m cb taskId interval outcomes)
        = observedStatuses outcomes ∧
      (progressArgs (pollReportStatus m cb taskId interval scenario1)).length = 4 ∧
      (cb.onComplete.isSome = true →
        (completeArgs (pollReportStatus m cb taskId interval scenario1)).length = 1) := by
  refine ⟨progressArgs_pollReportStatus m hq hp taskId interval outcomes, ?_, ?_⟩
  · rw [progressArgs_pollReportStatus m hq hp taskId interval scenario1]
    decide
  · intro hc
    have h := completeArgs_of_completed m hq hc taskId interval
      [.resolved (mkStatus "queued" 0), .resolved (mkStatus "processing" 40),
        .resolved (mkStatus "processing" 80)] (by decide) (s := mkStatus "completed" 100) rfl []
    have hsc : scenario1 = [.resolved (mkStatus "queued" 0), .resolved (mkStatus "processing" 40),
        .resolved (mkStatus "processing" 80)] ++ .resolved (mkStatus "completed" 100) :: [] := rfl
    rw [hsc, h]
    rfl

/-- A witness of C5: the recording callbacks on a session that fails at once. -/
theorem C5_onProgress_sees_every_status_witness :
    progressArgs (pollReportStatus .apiConfig recorder "job-1" 2000
        [.resolved (mkFailed (some "quota exceeded")), .resolved (mkStatus "processing" 5)])
        = observedStatuses
            [.resolved (mkFailed (some "quota exceeded")), .resolved (mkStatus "processing" 5)] ∧
      (progressArgs (pollReportStatus .apiConfig recorder "job-1" 2000 scenario1)).length = 4 ∧
      (completeArgs (pollReportStatus .apiConfig recorder "job-1" 2000 scenario1)).length = 1 :=
  ⟨(C5_onProgress_sees_every_status .apiConfig recorder "job-1" 2000
      [.resolved (mkFailed (some "quota exceeded")), .resolved (mkStatus "processing" 5)]
      recorder_quiet rfl).1,
    (C5_onProgress_sees_every_status .apiConfig recorder "job-1" 2000
      [.resolved (mkFailed (some "quota exceeded")), .resolved (mkStatus "processing" 5)]
      recorder_quiet rfl).2.1,
    (C5_onProgress_sees_every_status .apiConfig recorder "job-1" 2000
      [.resolved (mkFailed (some "quota exceeded")), .resolved (mkStatus "processing" 5)]
      recorder_quiet rfl).2.2 rfl⟩

theorem progressArgs_callComplete (cb : Callbacks) (s : Status) :
    progressArgs (callComplete cb s).1 = [] := by
  unfold callComplete
  cases cb.onComplete <;> rfl

theorem progressArgs_callError (cb : Callbacks) (a : Option String) :
    progressArgs (callError cb a).1 = [] := by
  unfold callError
  cases cb.onError <;> rfl

/-- The events of the `try` block on a delivered status: the query, the events of the
call of `onProgress`, and events that are not invocations of `onProgress`. -/
theorem tryBlock_resolved_events (m : Module) (cb : Callbacks) (t : String) (i : Nat)
    (s : Status) :
    ∃ X, (tryBlock m cb t i (.resolved s)).1 = .query t :: ((callProgress cb s).1 ++ X) ∧
      progressArgs X = [] := by
  have hc := progressArgs_callComplete cb s
  have he := progressArgs_callError cb (failedArg m s.error)
  simp only [tryBlock, getReportStatus_resolved]
  generalize callComplete cb s = cc at hc
  generalize callError cb (failedArg m s.error) = ce at he
  obtain ⟨e1, r⟩ := callProgress cb s
  obtain ⟨e2, r2⟩ := cc
  obtain ⟨e3, r3⟩ := ce
  cases r with
  | raised x => exact ⟨[], by simp, rfl⟩
  | returned =>
    by_cases h1 : s.status = some "completed"
    · simp only [h1, if_true]
      cases r2 <;> exact ⟨e2, rfl, hc⟩
    · by_cases h2 : s.status = some "failed"
      · have hne : ¬ (some "failed" : Option String) = some "completed" := by decide
        simp only [h2, hne, if_true, if_false]
        cases r3 <;> exact ⟨e3, rfl, he⟩
      · simp only [h1, h2, if_false]
        exact ⟨[.schedule i], rfl, rfl⟩

/-- The events of one run of `poll` are those of its `try` block, followed by events that
are not invocations of `onProgress`. -/
theorem poll_events (m : Module) (cb : Callbacks) (t : String) (i : Nat) (o : Outcome) :
    ∃ Y, (poll m cb t i o).1 = (tryBlock m cb t i o).1 ++ Y ∧ progressArgs Y = [] := by
  simp only [poll]
  obtain ⟨ev, r⟩ := tryBlock m cb t i o
  cases r with
  | done => exact ⟨[], by simp, rfl⟩
  | scheduled => exact ⟨[], by simp, rfl⟩
  | thrown x => exact ⟨(callError cb x).1, rfl, progressArgs_callError cb x⟩

/-- One run of `poll` invokes `onProgress` at most once, and only with the delivered status,
whatever the callbacks do. -/
theorem progressArgs_poll (m : Module) (cb : Callbacks) (t : String) (i : Nat) (o : Outcome) :
    progressArgs (poll m cb t i o).1 = [] ∨
      ∃ s, o = .resolved s ∧ progressArgs (poll m cb t i o).1 = [s] := by
  obtain ⟨Y, hY, hYp⟩ := poll_events m cb t i o
  cases o with
  | rejected msg =>
    left
    have hr : ∃ msg2, getReportStatus m (.rejected msg) = .rejected msg2 := by
      cases m
      · exact ⟨_, rfl⟩
      · exact ⟨_, rfl⟩
    obtain ⟨msg2, hr⟩ := hr
    rw [poll_rejected m cb t i hr]
    rcases h : cb.onError with _ | f <;> simp [callError, h, progressArgs]
  | resolved s =>
    obtain ⟨X, hX, hXp⟩ := tryBlock_resolved_events m cb t i s
    rw [hY, hX]
    rcases callProgress_shape cb s with h | h
    · left
      simp [h, progressArgs, progressArgs_append, hXp, hYp]
    · right
      exact ⟨s, rfl, by simp [h, progressArgs, progressArgs_append, hXp, hYp]⟩

/-- Whatever the callbacks do, the statuses passed to `onProgress` are, in order, among the
statuses that the endpoint delivered. -/
theorem progressArgs_sublist_delivered (m : Module) (cb : Callbacks) (t : String) (i : Nat)
    (outcomes : List Outcome) :
    List.Sublist (progressArgs (pollReportStatus m cb t i outcomes))
      (deliveredStatuses outcomes) := by
  induction outcomes with
  | nil => exact List.Sublist.slnil
  | cons o rest ih =>
    have hstep : List.Sublist (progressArgs (poll m cb t i o).1) (deliveredStatuses [o]) := by
      rcases progressArgs_poll m cb t i o with h | ⟨s, rfl, h⟩
      · rw [h]; exact List.nil_sublist _
      · rw [h]; exact List.Sublist.refl _
    have hdel : deliveredStatuses (o :: rest)
        = deliveredStatuses [o] ++ deliveredStatuses rest := by
      cases o <;> simp [deliveredStatuses]
    rw [hdel]
    simp only [pollReportStatus]
    rcases hp : poll m cb t i o with ⟨ev, b⟩
    rw [hp] at hstep
    cases b with
    | true =>
      simp only [progressArgs_append]
      exact List.Sublist.append hstep ih
    | false =>
      simp only
      exact List.Sublist.trans hstep (List.sublist_append_left _ _)

/-- The statement of C6 fails: the endpoint may report progress 50 and then 40, and
`onProgress` is invoked with 50 and then with 40. -/
theorem C6_counterexample :
    (progressArgs (pollReportStatus .configApi recorder "job-1" 3000
        [.resolved (mkStatus "processing" 50), .resolved (mkStatus "processing" 40)])).map
        Status.progressValue = [50, 40] ∧
    ¬ List.Pairwise (· ≤ ·) ((progressArgs (pollReportStatus .configApi recorder "job-1" 3000
        [.resolved (mkStatus "processing" 50), .resolved (mkStatus "processing" 40)])).map
        Status.progressValue) := by
  decide

/-- C6, amended. In every poll session, whatever the callbacks do, the statuses passed to
`onProgress` are, in invocation order, statuses that the endpoint returned, unchanged;
hence whenever the progress values of the returned statuses are non-decreasing, so are
the progress values passed to `onProgress`. -/
theorem C6_progress_follows_endpoint (m : Module) (cb : Callbacks) (taskId : String)
    (interval : Nat) (outcomes : List Outcome)
    (hmono : List.Pairwise (· ≤ ·) ((deliveredStatuses outcomes).map Status.progressValue)) :
    List.Sublist (progressArgs (pollReportStatus m cb taskId interval outcomes))
        (deliveredStatuses outcomes) ∧
      List.Pairwise (· ≤ ·)
        ((progressArgs (pollReportStatus m cb taskId interval outcomes)).map
          Status.progressValue) := by
  have hsub := progressArgs_sublist_delivered m cb taskId interval outcomes
  exact ⟨hsub, List.Pairwise.sublist (List.Sublist.map _ hsub) hmono⟩

/-- A witness of C6: scenario 1, whose progress values 0, 40, 80, 100 are non-decreasing. -/
theorem C6_progress_follows_endpoint_witness :
    List.Sublist (progressArgs (pollReportStatus .configApi recorder "job-1" 3000 scenario1))
        (deliveredStatuses scenario1) ∧
      List.Pairwise (· ≤ ·)
        ((progressArgs (pollReportStatus .configApi recorder "job-1" 3000 scenario1)).map
          Status.progressValue) :=
  C6_progress_follows_endpoint .configApi recorder "job-1" 3000 scenario1 (by decide)

/-- The statement of C7 fails: a status `completed` with progress 80 is passed to
`onProgress` and then to `onComplete`; neither progress value is 100. -/
theorem C7_counterexample :
    callbacks (pollReportStatus .configApi recorder "job-1" 3000
        [.resolved (mkStatus "completed" 80)])
      = [.progress (mkStatus "completed" 80), .complete (mkStatus "completed" 80)] ∧
    (mkStatus "completed" 80).progress ≠ some 100 := by
  decide

/-- C7, amended. In every poll session in which a status query returns a status `s` whose
`status` is `completed`, with callbacks that are supplied and do not raise, the last two
callback invocations are `onProgress` with `s` and then `onComplete` with the same `s`,
and `s` is the last status passed to `onProgress`: the progress observed at completion is
`s.progress` as the endpoint reported it, so it is 100 whenever the completed status
carries progress 100. -/
theorem C7_completion_preceded_by_same_progress (m : Module) (cb : Callbacks)
    (taskId : String) (interval : Nat) (pre : List Outcome) (s : Status)
    (rest : List Outcome) (hq : cb.Quiet) (hp : cb.onProgress.isSome = true)
    (hc : cb.onComplete.isSome = true) (hpre : ∀ o ∈ pre, o.isTerminal = false)
    (hs : s.status = some "completed") :
    (∃ l, callbacks (pollReportStatus m cb taskId interval (pre ++ .resolved s :: rest))
        = l ++ [.progress s, .complete s]) ∧
      (progressArgs (pollReportStatus m cb taskId interval
          (pre ++ .resolved s :: rest))).getLast? = some s := by
  have hot : (Outcome.resolved s).isTerminal = true := by
    simp [Outcome.isTerminal, Status.isTerminal, hs]
  rw [pollReportStatus_append m hq taskId interval pre hpre,
    pollReportStatus_cons_terminal m cb taskId interval hot,
    poll_completed m hq taskId interval hs, callComplete_events hc, callProgress_events hp]
  refine ⟨⟨callbacks (prefixTrace cb taskId interval pre), ?_⟩, ?_⟩
  · rw [callbacks_append]
    simp [callbacks, Event.isCallback]
  · rw [progressArgs_append]
    simp [progressArgs]

/-- A witness of C7: `processing` at 80, then `completed` at 100. -/
theorem C7_completion_preceded_by_same_progress_witness :
    (∃ l, callbacks (pollReportStatus .configApi recorder "job-1" 3000
        ([.resolved (mkStatus "processing" 80)] ++ .resolved (mkStatus "completed" 100) :: []))
        = l ++ [.progress (mkStatus "completed" 100), .complete (mkStatus "completed" 100)]) ∧
      (progressArgs (pollReportStatus .configApi recorder "job-1" 3000
          ([.resolved (mkStatus "processing" 80)] ++ .resolved (mkStatus "completed" 100)
            :: []))).getLast? = some (mkStatus "completed" 100) :=
  C7_completion_preceded_by_same_progress .configApi recorder "job-1" 3000
    [.resolved (mkStatus "processing" 80)] (mkStatus "completed" 100) []
    recorder_quiet rfl rfl (by decide) rfl

/-! ## The fallback simulator -/

theorem simAfter_succ (up : String → String) (clock : Nat → Clock) (st : PageState)
    (reportId : Nat) (reportType : String) (n : Nat) :
    simAfter up clock st reportId reportType (n + 1)
      = ((simStep up (clock n) (simAfter up clock st reportId reportType n).1).1,
          (simAfter up clock st reportId reportType n).2
            ++ (simStep up (clock n)
                  (simAfter up clock st reportId reportType n).1).2.toList) := rfl

/-- The first ten turns of a simulator session in closed form: each is a tick. -/
theorem simAfter_ticks (up : String → String) (clock : Nat → Clock) (st : PageState)
    (reportId : Nat) (reportType : String) (k : Nat) (hk : k ≤ 10) :
    simAfter up clock st reportId reportType k
      = (({ st with reportStatus := some (tickedStatus up reportType k) },
          { reportId := reportId, reportType := reportType, progress := 10 * k,
            intervalActive := decide (k < 10), timeoutPending := decide (k = 10) }),
         List.replicate k Timer.interval) := by
  induction k with
  | zero => rfl
  | succ k ih =>
    have hk2 : k < 10 := by omega
    rw [simAfter_succ, ih (by omega)]
    have hstr : toString (10 * k + 10) = toString (10 * (k + 1)) := by
      rw [Nat.mul_add]
    by_cases h9 : k = 9
    · subst h9
      rfl
    · have hlt : ¬ (10 * k + 10 ≥ 100) := by omega
      have hlt2 : k + 1 < 10 := by omega
      have hne : ¬ (k + 1 = 10) := by omega
      simp only [simStep, intervalCallback, withProgress, tickedStatus, hk2, decide_True,
        if_true, hlt, if_false, hlt2, hne, decide_False, Option.toList, hstr,
        List.replicate_succ', Nat.add_eq_zero, one_ne_zero, and_false]
      have h10 : ¬ k = 10 := by omega
      simp [h10, Nat.mul_add]

/-- The eleventh turn of a simulator session is the timeout: the report is completed. -/
theorem simAfter_completed (up : String → String) (clock : Nat → Clock) (st : PageState)
    (reportId : Nat) (reportType : String) :
    simAfter up clock st reportId reportType 11
      = (({ st with
            reportStatus := some (completedStatus up reportType)
            reports := simulatedReport up (clock 10) reportId reportType :: st.reports
            usingFallback := true },
          { reportId := reportId, reportType := reportType, progress := 100,
            intervalActive := false, timeoutPending := false }),
         List.replicate 10 Timer.interval ++ [Timer.timeout]) := by
  rw [simAfter_succ, simAfter_ticks up clock st reportId reportType 10 (le_refl _)]
  rfl

/-- After the timeout has fired no timer of the session is armed: nothing changes. -/
theorem simAfter_idle (up : String → String) (clock : Nat → Clock) (st : PageState)
    (reportId : Nat) (reportType : String) (j : Nat) :
    simAfter up clock st reportId reportType (11 + j)
      = simAfter up clock st reportId reportType 11 := by
  induction j with
  | zero => rfl
  | succ j ih =>
    rw [← Nat.add_assoc, simAfter_succ, ih, simAfter_completed]
    rfl

/-- However long a simulator session runs, the number of ticks that fired after `n`
turns is `min n 10`. -/
theorem simAfter_tick_count (up : String → String) (clock : Nat → Clock) (st : PageState)
    (reportId : Nat) (reportType : String) (n : Nat) :
    (simAfter up clock st reportId reportType n).2.count Timer.interval = min n 10 := by
  by_cases hn : n ≤ 10
  · rw [simAfter_ticks up clock st reportId reportType n hn, List.count_replicate_self]
    omega
  · obtain ⟨j, rfl⟩ : ∃ j, n = 11 + j := ⟨n - 11, by omega⟩
    rw [simAfter_idle, simAfter_completed]
    have : min (11 + j) 10 = 10 := by omega
    rw [this]
    rfl

/-- C8. For every `reportId` and `reportType` (and every page state, clock and
`toUpperCase`), the first ten turns of a simulator session are ticks of the interval;
after the `k`-th tick (`k ≤ 10`) the variable `progress` is `10 * k`, ten more than after
the previous tick, the displayed progress is that number followed by `%`, and the status
is still `processing`; the interval is armed exactly while `k < 10` and the timeout is
armed exactly at `k = 10`; the eleventh turn is the timeout, which sets the status
`completed`; and however long the session runs, exactly ten ticks fire. -/
theorem C8_simulator_progress_sequence (up : String → String) (clock : Nat → Clock)
    (st : PageState) (reportId : Nat) (reportType : String) (k : Nat) (hk : k ≤ 10) :
    (simAfter up clock st reportId reportType k).2 = List.replicate k Timer.interval ∧
      (simAfter up clock st reportId reportType k).1.2.progress = 10 * k ∧
      (simAfter up clock st reportId reportType (k + 1)).1.2.progress
        = (simAfter up clock st reportId reportType k).1.2.progress
            + (if k < 10 then 10 else 0) ∧
      (simAfter up clock st reportId reportType k).1.1.shownProgress
        = some (toString (10 * k) ++ "%") ∧
      (simAfter up clock st reportId reportType k).1.1.shownStatus = some "processing" ∧
      (simAfter up clock st reportId reportType k).1.2.intervalActive = decide (k < 10) ∧
      (simAfter up clock st reportId reportType k).1.2.timeoutPending = decide (k = 10) ∧
      (simAfter up clock st reportId reportType 11).2
        = List.replicate 10 Timer.interval ++ [Timer.timeout] ∧
      (simAfter up clock st reportId reportType 11).1.1.shownStatus = some "completed" ∧
      ∀ n, (simAfter up clock st reportId reportType n).2.count Timer.interval
        = min n 10 := by
  have hnext : (simAfter up clock st reportId reportType (k + 1)).1.2.progress
      = 10 * k + (if k < 10 then 10 else 0) := by
    by_cases h : k < 10
    · rw [simAfter_ticks up clock st reportId reportType (k + 1) (by omega)]
      simp only [h, if_true]
      omega
    · have h10 : k = 10 := by omega
      subst h10
      rw [simAfter_completed]
      rfl
  rw [hnext, simAfter_ticks up clock st reportId reportType k hk, simAfter_completed]
  exact ⟨rfl, rfl, rfl, rfl, rfl, rfl, rfl, rfl, rfl,
    simAfter_tick_count up clock st reportId reportType⟩

/-- A witness of C8: the state after the seventh tick of a `performance` simulation. -/
theorem C8_simulator_progress_sequence_witness :
    (simAfter String.toUpper fixedClock initialPage 7 "performance" 7).2
        = List.replicate 7 Timer.interval ∧
      (simAfter String.toUpper fixedClock initialPage 7 "performance" 7).1.2.progress
        = 10 * 7 ∧
      (simAfter String.toUpper fixedClock initialPage 7 "performance" (7 + 1)).1.2.progress
        = (simAfter String.toUpper fixedClock initialPage 7 "performance" 7).1.2.progress
            + (if 7 < 10 then 10 else 0) ∧
      (simAfter String.toUpper fixedClock initialPage 7 "performance" 7).1.1.shownProgress
        = some (toString (10 * 7) ++ "%") ∧
      (simAfter String.toUpper fixedClock initialPage 7 "performance" 7).1.1.shownStatus
        = some "processing" ∧
      (simAfter String.toUpper fixedClock initialPage 7 "performance" 7).1.2.intervalActive
        = decide (7 < 10) ∧
      (simAfter String.toUpper fixedClock initialPage 7 "performance" 7).1.2.timeoutPending
        = decide (7 = 10) ∧
      (simAfter String.toUpper fixedClock initialPage 7 "performance" 11).2
        = List.replicate 10 Timer.interval ++ [Timer.timeout] ∧
      (simAfter String.toUpper fixedClock initialPage 7 "performance" 11).1.1.shownStatus
        = some "completed" ∧
      ∀ n, (simAfter String.toUpper fixedClock initialPage 7 "performance" n).2.count
        Timer.interval = min n 10 :=
  C8_simulator_progress_sequence String.toUpper fixedClock initialPage 7 "performance" 7
    (by decide)

/-- C9. Every simulator session, however long it runs: its status is `processing` for
the first ten turns and `completed` from the eleventh on, so it changes exactly once and
is never `failed`; the timeout fires exactly once and the completed report is prepended
to the reports exactly once; the error state is left as it was; the variable `progress`
is `10 * min n 10`, strictly increasing over the turns in which the status is
`processing`; and when the status is `completed` the displayed progress is `100%`. -/
theorem C9_simulator_session_invariants (up : String → String) (clock : Nat → Clock)
    (st : PageState) (reportId : Nat) (reportType : String) (n : Nat) :
    (simAfter up clock st reportId reportType n).1.1.shownStatus
        = some (if n ≤ 10 then "processing" else "completed") ∧
      (simAfter up clock st reportId reportType n).1.1.shownStatus ≠ some "failed" ∧
      (simAfter up clock st reportId reportType n).1.1.error = st.error ∧
      (simAfter up clock st reportId reportType n).2.count Timer.timeout
        = (if n ≤ 10 then 0 else 1) ∧
      (simAfter up clock st reportId reportType n).1.1.reports
        = (if n ≤ 10 then st.reports
           else simulatedReport up (clock 10) reportId reportType :: st.reports) ∧
      (simAfter up clock st reportId reportType n).1.2.progress = 10 * min n 10 ∧
      (∀ i j, i < j → j ≤ 10 →
        (simAfter up clock st reportId reportType i).1.2.progress
          < (simAfter up clock st reportId reportType j).1.2.progress) ∧
      (simAfter up clock st reportId reportType n).1.1.shownProgress
        = some (if n ≤ 10 then toString (10 * n) ++ "%" else "100%") := by
  have hmono : ∀ i j, i < j → j ≤ 10 →
      (simAfter up clock st reportId reportType i).1.2.progress
        < (simAfter up clock st reportId reportType j).1.2.progress := by
    intro i j hij hj
    rw [simAfter_ticks up clock st reportId reportType i (by omega),
      simAfter_ticks up clock st reportId reportType j hj]
    show 10 * i < 10 * j
    omega
  by_cases hn : n ≤ 10
  · rw [simAfter_ticks up clock st reportId reportType n hn]
    have hmin : min n 10 = n := by omega
    rw [if_pos hn, if_pos hn, if_pos hn, if_pos hn, hmin]
    refine ⟨rfl, ?_, rfl, ?_, rfl, rfl, hmono, rfl⟩
    · show some "processing" ≠ some "failed"
      decide
    · rw [List.count_replicate]
      simp
  · obtain ⟨j, rfl⟩ : ∃ j, n = 11 + j := ⟨n - 11, by omega⟩
    rw [simAfter_idle, simAfter_completed]
    have hmin : min (11 + j) 10 = 10 := by omega
    rw [if_neg hn, if_neg hn, if_neg hn, if_neg hn, hmin]
    refine ⟨rfl, ?_, rfl, ?_, rfl, rfl, hmono, rfl⟩
    · show some "completed" ≠ some "failed"
      decide
    · rfl

/-! ## Submission and fallback -/

/-- C10. For every `reportType` (the default `comprehensive` when it is omitted): when
`studentAPI.generateReport` rejects, the page's `generateReport` calls
`simulateReportProgress` exactly once, with that `reportType`, and never calls
`pollReportStatus`, and the session it starts is the simulator's; when it resolves with an
object whose `task_id` is a non-empty string, `pollReportStatus` is called exactly once,
with that `task_id`, and `simulateReportProgress` is not called. -/
theorem C10_fallback_exactly_when_submission_fails (up : String → String)
    (typeError : String) (clock : Clock) (st : PageState) (reportTypeArg : Option String)
    (message : String) (taskId : String) (ht : truthy (some taskId) = true) :
    (generateReport up typeError clock st reportTypeArg (.rejected message)).2.1
        = [.submit (studentIdOf st.userData) (reportTypeArg.getD "comprehensive"),
           .simulateStarted clock.now (reportTypeArg.getD "comprehensive")] ∧
      (generateReport up typeError clock st reportTypeArg (.rejected message)).2.2
        = some { reportId := clock.now, reportType := reportTypeArg.getD "comprehensive",
                 progress := 0, intervalActive := true, timeoutPending := false } ∧
      (generateReport up typeError clock st reportTypeArg
          (.resolved (.object (some taskId)))).2.1
        = [.submit (studentIdOf st.userData) (reportTypeArg.getD "comprehensive"),
           .pollStarted taskId 3000] ∧
      (generateReport up typeError clock st reportTypeArg
          (.resolved (.object (some taskId)))).2.2 = none := by
  have hne : (taskId != "") = true := ht
  refine ⟨rfl, rfl, ?_, ?_⟩
  · simp only [generateReport, hne, if_true]
  · simp only [generateReport, hne, if_true]

/-- A witness of C10: a `performance` report, with the task identifier `job-1`. -/
theorem C10_fallback_exactly_when_submission_fails_witness :
    (generateReport String.toUpper "" (fixedClock 0) initialPage (some "performance")
        (.rejected "Failed to fetch")).2.1
        = [.submit (studentIdOf initialPage.userData)
            ((some "performance" : Option String).getD "comprehensive"),
           .simulateStarted (fixedClock 0).now
            ((some "performance" : Option String).getD "comprehensive")] ∧
      (generateReport String.toUpper "" (fixedClock 0) initialPage (some "performance")
        (.rejected "Failed to fetch")).2.2
        = some { reportId := (fixedClock 0).now,
                 reportType := (some "performance" : Option String).getD "comprehensive",
                 progress := 0, intervalActive := true, timeoutPending := false } ∧
      (generateReport String.toUpper "" (fixedClock 0) initialPage (some "performance")
          (.resolved (.object (some "job-1")))).2.1
        = [.submit (studentIdOf initialPage.userData)
            ((some "performance" : Option String).getD "comprehensive"),
           .pollStarted "job-1" 3000] ∧
      (generateReport String.toUpper "" (fixedClock 0) initialPage (some "performance")
          (.resolved (.object (some "job-1")))).2.2 = none :=
  C10_fallback_exactly_when_submission_fails String.toUpper "" (fixedClock 0) initialPage
    (some "performance") "Failed to fetch" "job-1" (by decide)

/-- C11: the page's `generateReport` on a parsed response without `task_id`, or with an
empty one: the submission is the only call, neither a poll session nor a simulator session
starts, no error is set and the shown status is left as it was. A JSON `null` response,
like a rejection, does start the simulator. -/
theorem C11_response_without_task_id_starts_nothing (up : String → String)
    (typeError : String) (clock : Clock) (st : PageState) (reportTypeArg : Option String) :
    (generateReport up typeError clock st reportTypeArg (.resolved (.object none))).2
        = ([.submit (studentIdOf st.userData) (reportTypeArg.getD "comprehensive")], none) ∧
      (generateReport up typeError clock st reportTypeArg (.resolved (.object (some "")))).2
        = ([.submit (studentIdOf st.userData) (reportTypeArg.getD "comprehensive")], none) ∧
      (generateReport up typeError clock st reportTypeArg (.resolved (.object none))).1
        = { st with generatingReport := false, error := none } ∧
      (generateReport up typeError clock st reportTypeArg (.resolved .jsonNull)).2.1
        = [.submit (studentIdOf st.userData) (reportTypeArg.getD "comprehensive"),
           .simulateStarted clock.now (reportTypeArg.getD "comprehensive")] :=
  ⟨rfl, rfl, rfl, rfl⟩

/-- The calls of the page's `generateReport` begin with the submission. -/
theorem generateReport_calls (up : String → String) (typeError : String) (clock : Clock)
    (st : PageState) (reportTypeArg : Option String) (o : SubmitOutcome) :
    (∃ t, o = .resolved (.object (some t)) ∧ truthy (some t) = true ∧
        (generateReport up typeError clock st reportTypeArg o).2.1
          = [.submit (studentIdOf st.userData) (reportTypeArg.getD "comprehensive"),
             .pollStarted t 3000]) ∨
      ((generateReport up typeError clock st reportTypeArg o).2.1
          = [.submit (studentIdOf st.userData) (reportTypeArg.getD "comprehensive"),
             .simulateStarted clock.now (reportTypeArg.getD "comprehensive")]) ∨
      ((generateReport up typeError clock st reportTypeArg o).2.1
          = [.submit (studentIdOf st.userData) (reportTypeArg.getD "comprehensive")]) := by
  cases o with
  | rejected msg => exact Or.inr (Or.inl rfl)
  | resolved body =>
    cases body with
    | jsonNull => exact Or.inr (Or.inl rfl)
    | object task_id =>
      cases task_id with
      | none => exact Or.inr (Or.inr rfl)
      | some t =>
        by_cases ht : (t != "") = true
        · left
          refine ⟨t, rfl, ht, ?_⟩
          simp only [generateReport, ht, if_true]
        · right; right
          simp only [generateReport, ht, if_false, Bool.false_eq_true]

/-- C12. In every run of the page's `generateReport`, whatever the submission delivers and
whatever the status endpoint answers: the first thing that happens is the submission;
`pollReportStatus` is called only with the `task_id` of the response the submission
resolved with, and with the interval 3000; and every status query of the run carries that
`task_id`. Since the run begins with the submission and the poll session is started from
its response, no status query comes before the submission has completed. -/
theorem C12_poll_only_after_submission (up : String → String) (typeError : String)
    (clock : Clock) (st : PageState) (reportTypeArg : Option String) (o : SubmitOutcome)
    (outcomes : List Outcome) :
    (∃ rest, pageRun up typeError clock st reportTypeArg o outcomes
        = .call (.submit (studentIdOf st.userData) (reportTypeArg.getD "comprehensive"))
            :: rest) ∧
      (∀ t i, Action.pollStarted t i
          ∈ (generateReport up typeError clock st reportTypeArg o).2.1 →
        o = .resolved (.object (some t)) ∧ i = 3000) ∧
      (∀ q, PageEvent.session (.query q)
          ∈ pageRun up typeError clock st reportTypeArg o outcomes →
        o = .resolved (.object (some q))) := by
  rcases generateReport_calls up typeError clock st reportTypeArg o with
    ⟨t, rfl, _, h⟩ | h | h
  · refine ⟨⟨_, by simp only [pageRun, h, List.flatMap_cons, List.flatMap_nil,
      List.singleton_append]; rfl⟩, ?_, ?_⟩
    · intro t2 i hmem
      rw [h] at hmem
      simp at hmem
      obtain ⟨rfl, rfl⟩ := hmem
      exact ⟨rfl, rfl⟩
    · intro q hmem
      simp only [pageRun, h, List.flatMap_cons, List.flatMap_nil, List.singleton_append,
        List.append_nil, List.mem_cons, List.mem_map, reduceCtorEq, false_or] at hmem
      obtain ⟨e, he, heq⟩ := hmem
      have heq2 : e = .query q := by
        injection heq
      subst heq2
      have hq : ∀ (outs : List Outcome), Event.query q
          ∈ pollReportStatus .configApi pageCallbacks t 3000 outs → q = t := by
        intro outs
        induction outs with
        | nil => intro h0; simp [pollReportStatus] at h0
        | cons o2 rest ih =>
          intro h0
          have hsplit : Event.query q ∈ (poll .configApi pageCallbacks t 3000 o2).1 ∨
              Event.query q ∈ pollReportStatus .configApi pageCallbacks t 3000 rest := by
            simp only [pollReportStatus] at h0
            rcases hp : poll .configApi pageCallbacks t 3000 o2 with ⟨ev, b⟩
            rw [hp] at h0
            cases b with
            | true => simpa using h0
            | false => exact Or.inl (by simpa using h0)
          rcases hsplit with h1 | h1
          · cases o2 with
            | rejected msg =>
              simp [poll, tryBlock, getReportStatus, callError, pageCallbacks] at h1
              exact h1
            | resolved s2 =>
              simp only [poll, tryBlock, getReportStatus, callProgress, callComplete,
                callError, pageCallbacks] at h1
              split_ifs at h1 <;> simp at h1 <;> exact h1
          · exact ih h1
      rw [hq outcomes he]
  · refine ⟨⟨_, by simp only [pageRun, h, List.flatMap_cons, List.flatMap_nil,
      List.singleton_append]; rfl⟩, ?_, ?_⟩
    · intro t2 i hmem
      rw [h] at hmem
      simp at hmem
    · intro q hmem
      simp [pageRun, h] at hmem
  · refine ⟨⟨_, by simp only [pageRun, h, List.flatMap_cons, List.flatMap_nil,
      List.singleton_append]; rfl⟩, ?_, ?_⟩
    · intro t2 i hmem
      rw [h] at hmem
      simp at hmem
    · intro q hmem
      simp [pageRun, h] at hmem

/-- The statement of C19 fails: a stored user whose `id` is the number 0 is submitted as
`'current'`, not as 0. -/
theorem C19_counterexample :
    (generateReport String.toUpper "" (fixedClock 0)
        { initialPage with userData := some { id := .num 0 } } (some "performance")
        (.resolved (.object (some "job-1")))).2.1
      = [.submit (.str "current") "performance", .pollStarted "job-1" 3000] ∧
    JsId.str "current" ≠ JsId.num 0 := by
  decide

/-- C19, amended. The subject id that the page's `generateReport` submits, whatever the
submission delivers, is the stored user's `id` when that `id` is truthy (a non-zero
number or a non-empty string), and the sentinel `'current'` otherwise: when `userData` is
`null`, when it has no `id`, and also when its `id` is 0 or the empty string. -/
theorem C19_student_id_or_current (up : String → String) (typeError : String)
    (clock : Clock) (st : PageState) (reportTypeArg : Option String) (o : SubmitOutcome) :
    (generateReport up typeError clock st reportTypeArg o).2.1.head?
        = some (.submit (studentIdOf st.userData) (reportTypeArg.getD "comprehensive")) ∧
      (∀ u, st.userData = some u → u.id.truthy = true → studentIdOf st.userData = u.id) ∧
      (∀ u, st.userData = some u → u.id.truthy = false →
        studentIdOf st.userData = .str "current") ∧
      (st.userData = none → studentIdOf st.userData = .str "current") ∧
      (∀ n : Int, JsId.truthy (.num n) = true ↔ n ≠ 0) ∧
      (∀ x : String, JsId.truthy (.str x) = true ↔ x ≠ "") ∧
      JsId.truthy .undefined = false := by
  refine ⟨?_, ?_, ?_, ?_, ?_, ?_, rfl⟩
  · rcases generateReport_calls up typeError clock st reportTypeArg o with
      ⟨t, _, _, h⟩ | h | h <;> rw [h] <;> rfl
  · intro u hu ht
    simp [studentIdOf, hu, ht]
  · intro u hu ht
    simp [studentIdOf, hu, ht]
  · intro hu
    simp [studentIdOf, hu]
  · intro n
    simp [JsId.truthy]
  · intro x
    simp [JsId.truthy]

/-- A witness of C19: the stored user with `id` 42 is submitted as 42. -/
theorem C19_student_id_or_current_witness :
    (generateReport String.toUpper "" (fixedClock 0)
        { initialPage with userData := some { id := .num 42 } } (some "performance")
        (.rejected "Failed to fetch")).2.1.head?
      = some (.submit (.num 42) "performance") := by
  have h := (C19_student_id_or_current String.toUpper "" (fixedClock 0)
    { initialPage with userData := some { id := .num 42 } } (some "performance")
    (.rejected "Failed to fetch")).1
  exact h

/-! ## Sequencing of the status queries -/

theorem observedStatuses_append (pre : List Outcome) (hpre : ∀ o ∈ pre, o.isTerminal = false)
    (xs : List Outcome) :
    observedStatuses (pre ++ xs) = deliveredStatuses pre ++ observedStatuses xs := by
  induction pre with
  | nil => rfl
  | cons o pre ih =>
    obtain ⟨s, rfl, hs⟩ := Outcome.eq_resolved_of_nonterminal (hpre o (List.mem_cons_self _ _))
    have ih2 := ih (fun o ho => hpre o (List.mem_cons_of_mem _ ho))
    simp [observedStatuses, deliveredStatuses, hs, ih2]

theorem deliveredStatuses_replicate (s : Status) (n : Nat) :
    deliveredStatuses (List.replicate n (.resolved s)) = List.replicate n s := by
  induction n with
  | zero => rfl
  | succ n ih => simp [List.replicate_succ, deliveredStatuses, ih]

/-- The statement of C16 fails: when `onProgress` raises, the session ends in the `catch`
clause of the first run, so for a status `processing` at 40 returned three times in a row
`onProgress` is invoked once, not three times. -/
theorem C16_counterexample :
    progressArgs (pollReportStatus .configApi (progressRaises "boom") "job-1" 3000
        (List.replicate 3 (.resolved (mkStatus "processing" 40))))
      = [mkStatus "processing" 40] ∧
    (progressArgs (pollReportStatus .configApi (progressRaises "boom") "job-1" 3000
        (List.replicate 3 (.resolved (mkStatus "processing" 40))))).length ≠ 3 ∧
    errorArgs (pollReportStatus .configApi (progressRaises "boom") "job-1" 3000
        (List.replicate 3 (.resolved (mkStatus "processing" 40)))) = [some "boom"] := by
  decide

/-- C16, amended. For every `n`: when the status endpoint returns the same non-terminal
status `n` times in a row (after any non-terminal observations, and whatever follows), a
poll session whose callbacks do not raise and to which `onProgress` was passed invokes
`onProgress` `n` times with that same snapshot: nothing is deduplicated. -/
theorem C16_onProgress_not_deduplicated (m : Module) (cb : Callbacks) (taskId : String)
    (interval : Nat) (pre : List Outcome) (s : Status) (n : Nat) (rest : List Outcome)
    (hq : cb.Quiet) (hp : cb.onProgress.isSome = true)
    (hpre : ∀ o ∈ pre, o.isTerminal = false) (hs : s.isTerminal = false) :
    progressArgs (pollReportStatus m cb taskId interval
        (pre ++ (List.replicate n (.resolved s) ++ rest)))
      = deliveredStatuses pre ++ (List.replicate n s ++ observedStatuses rest) := by
  have hrep : ∀ o ∈ List.replicate n (Outcome.resolved s), o.isTerminal = false := by
    intro o ho
    rw [List.eq_of_mem_replicate ho]
    exact hs
  rw [progressArgs_pollReportStatus m hq hp, observedStatuses_append pre hpre,
    observedStatuses_append _ hrep, deliveredStatuses_replicate]

/-- A witness of C16: `processing` at 40 returned three times in a row, then `completed`. -/
theorem C16_onProgress_not_deduplicated_witness :
    progressArgs (pollReportStatus .configApi recorder "job-1" 3000
        ([.resolved (mkStatus "queued" 0)] ++ (List.replicate 3
          (.resolved (mkStatus "processing" 40)) ++ [.resolved (mkStatus "completed" 100)])))
      = deliveredStatuses [.resolved (mkStatus "queued" 0)]
          ++ (List.replicate 3 (mkStatus "processing" 40)
            ++ observedStatuses [.resolved (mkStatus "completed" 100)]) :=
  C16_onProgress_not_deduplicated .configApi recorder "job-1" 3000
    [.resolved (mkStatus "queued" 0)] (mkStatus "processing" 40) 3
    [.resolved (mkStatus "completed" 100)] recorder_quiet rfl (by decide) (by decide)

theorem callComplete_shape (cb : Callbacks) (s : Status) :
    (callComplete cb s).1 = [] ∨ (callComplete cb s).1 = [.complete s] := by
  unfold callComplete
  cases cb.onComplete with
  | none => exact Or.inl rfl
  | some f => exact Or.inr rfl

theorem callError_shape (cb : Callbacks) (a : Option String) :
    (callError cb a).1 = [] ∨ (callError cb a).1 = [.error a] := by
  unfold callError
  cases cb.onError with
  | none => exact Or.inl rfl
  | some f => exact Or.inr rfl

/-- One run of `poll` with callbacks that do not raise issues exactly one query, before
anything else. -/
theorem poll_one_query (m : Module) {cb : Callbacks} (hq : cb.Quiet) (t : String) (i : Nat)
    (o : Outcome) :
    ∃ rest, (poll m cb t i o).1 = .query t :: rest ∧ queryCount rest = 0 := by
  cases o with
  | rejected msg =>
    have hr : ∃ msg2, getReportStatus m (.rejected msg) = .rejected msg2 := by
      cases m
      · exact ⟨_, rfl⟩
      · exact ⟨_, rfl⟩
    obtain ⟨msg2, hr⟩ := hr
    refine ⟨_, by rw [poll_rejected m cb t i hr], ?_⟩
    rcases callError_shape cb (some msg2) with h | h <;> simp [h, queryCount, Event.isQuery]
  | resolved s =>
    by_cases hs : s.isTerminal = true
    · have hs2 := hs
      simp only [Status.isTerminal, Bool.or_eq_true, decide_eq_true_eq] at hs2
      rcases hs2 with h | h
      · refine ⟨_, by rw [poll_completed m hq t i h], ?_⟩
        rcases callProgress_shape cb s with h1 | h1 <;>
          rcases callComplete_shape cb s with h2 | h2 <;>
            simp [h1, h2, queryCount, Event.isQuery]
      · refine ⟨_, by rw [poll_failed m hq t i h], ?_⟩
        rcases callProgress_shape cb s with h1 | h1 <;>
          rcases callError_shape cb (failedArg m s.error) with h2 | h2 <;>
            simp [h1, h2, queryCount, Event.isQuery]
    · have hs2 : s.isTerminal = false := by simpa using hs
      refine ⟨_, by rw [poll_nonterminal m hq t i hs2], ?_⟩
      rcases callProgress_shape cb s with h1 | h1 <;> simp [h1, queryCount, Event.isQuery]

/-- A run of `poll` that schedules a further run saw a non-terminal outcome, and arming
the timer is the last thing it does. -/
theorem poll_reschedules (m : Module) {cb : Callbacks} (hq : cb.Quiet) (t : String) (i : Nat)
    (o : Outcome) (h : (poll m cb t i o).2 = true) :
    o.isTerminal = false ∧ (poll m cb t i o).1.getLast? = some (.schedule i) := by
  have hnt : o.isTerminal = false := by
    by_contra hc
    have hc2 : o.isTerminal = true := by simpa using hc
    rw [poll_terminal_stops m cb t i hc2] at h
    exact Bool.noConfusion h
  obtain ⟨s, rfl, hs⟩ := Outcome.eq_resolved_of_nonterminal hnt
  refine ⟨hnt, ?_⟩
  rw [poll_nonterminal m hq t i hs, ← List.cons_append, List.getLast?_append]
  simp

/-- The trace of a session is the concatenation of the runs of `poll` on the outcomes it
consumes. -/
theorem pollReportStatus_eq_flatMap (m : Module) {cb : Callbacks} (hq : cb.Quiet)
    (t : String) (i : Nat) (outcomes : List Outcome) :
    pollReportStatus m cb t i outcomes
      = (consumedOutcomes outcomes).flatMap fun o => (poll m cb t i o).1 := by
  induction outcomes with
  | nil => rfl
  | cons o rest ih =>
    by_cases ho : o.isTerminal = true
    · rw [pollReportStatus_cons_terminal m cb t i ho]
      simp [consumedOutcomes, ho]
    · have ho2 : o.isTerminal = false := by simpa using ho
      obtain ⟨s, rfl, hs⟩ := Outcome.eq_resolved_of_nonterminal ho2
      rw [pollReportStatus_cons_nonterminal m hq t i hs, ih]
      simp [consumedOutcomes, ho2, poll_nonterminal m hq t i hs]

theorem queryCount_flatMap_poll (m : Module) {cb : Callbacks} (hq : cb.Quiet)
    (t : String) (i : Nat) (l : List Outcome) :
    queryCount (l.flatMap fun o => (poll m cb t i o).1) = l.length := by
  induction l with
  | nil => rfl
  | cons o l ih =>
    obtain ⟨rest, hrest, h0⟩ := poll_one_query m hq t i o
    rw [List.flatMap_cons, queryCount_append, ih, hrest]
    have : queryCount (Event.query t :: rest) = 1 + queryCount rest := by
      simp [queryCount, Event.isQuery]
      omega
    rw [this, h0, List.length_cons]
    omega

/-- The statement of C15 fails: when a callback raises, the `catch` clause ends the
session although the response was not terminal. With `onProgress` raising, scenario 1
gives one query, while its outcomes up to and including the first terminal one number
four. -/
theorem C15_counterexample :
    queryCount (pollReportStatus .configApi (progressRaises "boom") "job-1" 3000 scenario1)
      = 1 ∧
    (consumedOutcomes scenario1).length = 4 ∧
    queryCount (pollReportStatus .configApi (progressRaises "boom") "job-1" 3000 scenario1)
      ≠ (consumedOutcomes scenario1).length := by
  decide

/-- C15, amended. Within one poll session whose callbacks do not raise, the status queries
are strictly sequential: the trace is the concatenation, over the outcomes up to and
including the first terminal one, of single runs of `poll`; each run issues exactly one
query, first, and the callbacks for its response follow inside the same run; only a run
on a non-terminal outcome schedules a further run, as its last act. Hence the number of
queries equals the number of outcomes up to and including the first terminal one. -/
theorem C15_queries_strictly_sequential (m : Module) (cb : Callbacks) (taskId : String)
    (interval : Nat) (outcomes : List Outcome) (hq : cb.Quiet) :
    pollReportStatus m cb taskId interval outcomes
        = (consumedOutcomes outcomes).flatMap (fun o => (poll m cb taskId interval o).1) ∧
      queryCount (pollReportStatus m cb taskId interval outcomes)
        = (consumedOutcomes outcomes).length ∧
      (∀ o, ∃ rest, (poll m cb taskId interval o).1 = .query taskId :: rest ∧
        queryCount rest = 0) ∧
      (∀ o, (poll m cb taskId interval o).2 = true →
        o.isTerminal = false ∧
          (poll m cb taskId interval o).1.getLast? = some (.schedule interval)) ∧
      (∀ o, o.isTerminal = true → (poll m cb taskId interval o).2 = false) := by
  refine ⟨pollReportStatus_eq_flatMap m hq taskId interval outcomes, ?_,
    poll_one_query m hq taskId interval, poll_reschedules m hq taskId interval,
    fun o ho => poll_terminal_stops m cb taskId interval ho⟩
  rw [pollReportStatus_eq_flatMap m hq taskId interval outcomes,
    queryCount_flatMap_poll m hq taskId interval]

/-- A witness of C15: scenario 1 followed by an outcome that is never queried. -/
theorem C15_queries_strictly_sequential_witness :
    queryCount (pollReportStatus .configApi recorder "job-1" 3000
        (scenario1 ++ [.rejected "late"])) = 4 := by
  have h := (C15_queries_strictly_sequential .configApi recorder "job-1" 3000
    (scenario1 ++ [.rejected "late"]) recorder_quiet).2.1
  rw [h]
  decide

/-! ## Real and simulated completion -/

/-- The callbacks of the page never raise. -/
theorem pageCallbacks_quiet : pageCallbacks.Quiet := by
  refine ⟨?_, ?_, ?_⟩ <;> intro f hf a <;>
    simp only [pageCallbacks, Option.some.injEq] at hf <;> subst hf <;> rfl

/-- A poll session of the page that reaches a `completed` status ends with the
invocation of the completion callback. -/
theorem pageSession_completed (t : String) (i : Nat) (pre : List Outcome)
    (hpre : ∀ o ∈ pre, o.isTerminal = false) {s : Status} (hs : s.status = some "completed")
    (rest : List Outcome) :
    pollReportStatus .configApi pageCallbacks t i (pre ++ .resolved s :: rest)
      = (prefixTrace pageCallbacks t i pre ++ [.query t, .progress s]) ++ [.complete s] := by
  have hot : (Outcome.resolved s).isTerminal = true := by
    simp [Outcome.isTerminal, Status.isTerminal, hs]
  rw [pollReportStatus_append .configApi pageCallbacks_quiet t i pre hpre,
    pollReportStatus_cons_terminal .configApi pageCallbacks t i hot,
    poll_completed .configApi pageCallbacks_quiet t i hs,
    @callComplete_events pageCallbacks rfl, @callProgress_events pageCallbacks rfl]
  simp

/-- C17. For every `reportType`: the `reportStatus` object that the page shows when a
real poll session completes (after the completion callback handed to `pollReportStatus`
has run, whatever the page showed before and whatever statuses were observed) equals the
`reportStatus` object shown when a `simulateReportProgress` session completes: status
`completed`, the capitalised title, the message `Report generated successfully!` and
progress `100%`. -/
theorem C17_completed_status_same_real_or_simulated (up : String → String) (clock : Clock)
    (simClock : Nat → Clock) (st st2 : PageState) (taskId : String) (reportId : Nat)
    (reportType : String) (pre : List Outcome) (s : Status) (rest : List Outcome)
    (hpre : ∀ o ∈ pre, o.isTerminal = false) (hs : s.status = some "completed") :
    (applyEvents up clock reportType st
        (pollReportStatus .configApi pageCallbacks taskId 3000
          (pre ++ .resolved s :: rest))).reportStatus
        = (simAfter up simClock st2 reportId reportType 11).1.1.reportStatus ∧
      (completionCallback up clock reportType st s).reportStatus
        = (timeoutCallback up (simClock 10)
            (simAfter up simClock st2 reportId reportType 10).1).1.reportStatus ∧
      (simAfter up simClock st2 reportId reportType 11).1.1.reportStatus
        = some { status := some "completed"
                 title := some (capitalize up reportType ++ " Report")
                 message := some "Report generated successfully!"
                 progress := some "100%"
                 taskId := none } := by
  rw [pageSession_completed taskId 3000 pre hpre hs rest, simAfter_completed,
    simAfter_ticks up simClock st2 reportId reportType 10 (le_refl _)]
  refine ⟨?_, rfl, rfl⟩
  simp only [applyEvents, List.foldl_append, List.foldl_cons, List.foldl_nil]
  rfl

/-- A witness of C17: a `performance` report completed after one `processing` status. -/
theorem C17_completed_status_same_real_or_simulated_witness :
    (applyEvents String.toUpper (fixedClock 0) "performance" initialPage
        (pollReportStatus .configApi pageCallbacks "job-1" 3000
          ([.resolved (mkStatus "processing" 40)]
            ++ .resolved (mkStatus "completed" 100) :: []))).reportStatus
      = (simAfter String.toUpper fixedClock initialPage 7 "performance" 11).1.1.reportStatus :=
  (C17_completed_status_same_real_or_simulated String.toUpper (fixedClock 0) fixedClock
    initialPage initialPage "job-1" 7 "performance" [.resolved (mkStatus "processing" 40)]
    (mkStatus "completed" 100) [] (by decide) rfl).1

/-! ## Requests -/

/-- Every call of `apiRequest` calls `fetch` exactly once, however the call ends. -/
theorem apiRequest_requests {α : Type} (m : Module) (baseURL : String) (storage : Storage)
    (endpoint : String) (options : Options) (fr : FetchResult α) :
    (apiRequest m baseURL storage endpoint options fr).requests
      = [buildRequest m (baseURL ++ endpoint) (getToken storage) options] := by
  unfold apiRequest
  cases fr with
  | rejected msg => rfl
  | response r =>
    simp only
    split_ifs
    · rfl
    · rfl
    · rfl
    · cases r.json <;> rfl

theorem generateReport_requests (m : Module) (baseURL : String) (storage : Storage)
    (studentId : JsId) (reportType : Option String) (fr : FetchResult SubmitBody) :
    (studentAPI.generateReport m baseURL storage studentId reportType fr).requests
      = [buildRequest m (baseURL ++ API_ENDPOINTS.generateReport) (getToken storage)
          { method := some "POST"
            headers := none
            body := some (stringify [("student_id", studentId),
              ("report_type", .str (reportType.getD "comprehensive"))]) }] := by
  cases m <;> simp only [studentAPI.generateReport, apiRequest_requests]

/-- C13. For every `studentId` and every `reportType`, whatever its value, in both
modules and however the request ends: `studentAPI.generateReport` calls `fetch` exactly
once, with the method `POST`, on the generate-report endpoint, with a body that carries
`student_id` equal to the given id (the key is left out by `JSON.stringify` only when the
id is `undefined`) and `report_type` equal to the given `reportType` unchanged, or to
`comprehensive` when `reportType` is omitted. -/
theorem C13_generateReport_posts_once (m : Module) (baseURL : String) (storage : Storage)
    (studentId : JsId) (reportType : Option String) (fr : FetchResult SubmitBody) :
    ∃ r, (studentAPI.generateReport m baseURL storage studentId reportType fr).requests = [r] ∧
      r.url = baseURL ++ "/api/students/generate-report/" ∧
      r.method = some "POST" ∧
      r.body = some (stringify [("student_id", studentId),
        ("report_type", .str (reportType.getD "comprehensive"))]) ∧
      r.body.bind (List.lookup "report_type")
        = some (.str (reportType.getD "comprehensive")) ∧
      r.body.bind (List.lookup "student_id")
        = (if studentId = .undefined then none else some studentId) ∧
      (∀ x, reportType = some x → r.body.bind (List.lookup "report_type") = some (.str x)) := by
  refine ⟨_, generateReport_requests m baseURL storage studentId reportType fr, rfl, by
    cases m <;> rfl, rfl, ?_, ?_, ?_⟩
  · cases studentId <;> simp [buildRequest, stringify, List.lookup]
  · cases studentId <;> simp [buildRequest, stringify, List.lookup]
  · intro x hx
    subst hx
    cases studentId <;> simp [buildRequest, stringify, List.lookup]

/-- A poll session that meets a failed query: `onError` once with the message,
`onComplete` never, and the failed query is the last one. -/
theorem session_query_failure (m : Module) {cb : Callbacks} (hq : cb.Quiet)
    (he : cb.onError.isSome = true) (t : String) (i : Nat) (pre : List Outcome)
    (hpre : ∀ x ∈ pre, x.isTerminal = false) {o : Outcome} {msg : String}
    (ho : getReportStatus m o = .rejected msg) (rest : List Outcome) :
    errorArgs (pollReportStatus m cb t i (pre ++ o :: rest)) = [some msg] ∧
      completeArgs (pollReportStatus m cb t i (pre ++ o :: rest)) = [] ∧
      queryCount (pollReportStatus m cb t i (pre ++ o :: rest)) = pre.length + 1 := by
  have hot := isTerminal_of_getReportStatus_rejected ho
  rw [pollReportStatus_append m hq t i pre hpre,
    pollReportStatus_cons_terminal m cb t i hot,
    poll_rejected m cb t i ho, callError_events he]
  refine ⟨?_, ?_, ?_⟩
  · rw [errorArgs_append, prefixTrace_errorArgs]
    simp [errorArgs]
  · rw [completeArgs_append, prefixTrace_completeArgs]
    simp [completeArgs]
  · rw [queryCount_append, prefixTrace_queryCount cb t i pre hpre]
    simp [queryCount, Event.isQuery]

/-- A response of status 401: the credential is removed, the page is sent to the login,
and `apiRequest` rejects with the authentication message. -/
theorem apiRequest_unauthorized {α : Type} (m : Module) (baseURL : String)
    (storage : Storage) (endpoint : String) (options : Options) (r : Response α)
    (h401 : r.status = 401) :
    (apiRequest m baseURL storage endpoint options (.response r)).storage
        = { token := none, accessToken := none, jwtToken := none } ∧
      (apiRequest m baseURL storage endpoint options (.response r)).location
        = some "/login" ∧
      (apiRequest m baseURL storage endpoint options (.response r)).result
        = .error (authMessage m) := by
  refine ⟨?_, ?_, ?_⟩
  · simp [apiRequest, h401, removeToken]
  · simp [apiRequest, h401]
  · have hm : rethrown m (authMessage m) = authMessage m := by
      cases m <;> rfl
    simp [apiRequest, h401, hm]

/-- C14. When a status query of a poll session receives a response of status 401 (after
any non-terminal observations, with callbacks that do not raise): `apiRequest` removes the
entries `token`, `accessToken` and `jwtToken`, so that `getToken` returns no token; the one
request is not repeated; and the session ends with exactly one invocation of `onError`,
with the authentication message, no invocation of `onComplete` and no further query. -/
theorem C14_unauthorized_query_ends_session (m : Module) (cb : Callbacks) (taskId : String)
    (interval : Nat) (baseURL : String) (storage : Storage) (r : Response Status)
    (pre rest : List Outcome) (hq : cb.Quiet) (he : cb.onError.isSome = true)
    (hpre : ∀ x ∈ pre, x.isTerminal = false) (h401 : r.status = 401) :
    (reportStatusRequest m baseURL storage taskId (.response r)).storage
        = { token := none, accessToken := none, jwtToken := none } ∧
      getToken (reportStatusRequest m baseURL storage taskId (.response r)).storage = none ∧
      (reportStatusRequest m baseURL storage taskId (.response r)).requests.length = 1 ∧
      errorArgs (pollReportStatus m cb taskId interval
        (pre ++ toOutcome (reportStatusRequest m baseURL storage taskId (.response r)).result
          :: rest)) = [some (authMessage m)] ∧
      completeArgs (pollReportStatus m cb taskId interval
        (pre ++ toOutcome (reportStatusRequest m baseURL storage taskId (.response r)).result
          :: rest)) = [] ∧
      queryCount (pollReportStatus m cb taskId interval
        (pre ++ toOutcome (reportStatusRequest m baseURL storage taskId (.response r)).result
          :: rest)) = pre.length + 1 := by
  obtain ⟨hst, _, hres⟩ := apiRequest_unauthorized m baseURL storage
    (API_ENDPOINTS.reportStatus taskId) { method := none, headers := none, body := none } r h401
  have hout : getReportStatus m (toOutcome (.error (authMessage m)))
      = .rejected (authMessage m) := by
    cases m <;> rfl
  refine ⟨hst, ?_, ?_, ?_⟩
  · simp only [reportStatusRequest]
    rw [hst]
    rfl
  · simp only [reportStatusRequest, apiRequest_requests, List.length_singleton]
  · simp only [reportStatusRequest]
    rw [hres]
    exact session_query_failure m hq he taskId interval pre hpre hout rest

/-- A witness of C14: a 401 after one `processing` status, with a stored token. -/
theorem C14_unauthorized_query_ends_session_witness :
    getToken (reportStatusRequest .configApi "http://127.0.0.1:8000" (tokenStorage "abc")
        "job-1" (.response (bareResponse Status 401))).storage = none ∧
      errorArgs (pollReportStatus .configApi recorder "job-1" 3000
        ([.resolved (mkStatus "processing" 50)]
          ++ toOutcome (reportStatusRequest .configApi "http://127.0.0.1:8000"
              (tokenStorage "abc") "job-1" (.response (bareResponse Status 401))).result
          :: [.resolved (mkStatus "completed" 100)])) = [some (authMessage .configApi)] := by
  have h := C14_unauthorized_query_ends_session .configApi recorder "job-1" 3000
    "http://127.0.0.1:8000" (tokenStorage "abc") (bareResponse Status 401)
    [.resolved (mkStatus "processing" 50)] [.resolved (mkStatus "completed" 100)]
    recorder_quiet rfl (by decide) rfl
  exact ⟨h.2.1, h.2.2.2.1⟩

/-- C20: `apiRequest` called with options that supply a header other than
`Authorization`, while a token is stored: in both modules the request carries only the
supplied header, neither `Authorization` nor `Content-Type`, because `...options`
replaces the key `headers` that was just built. With options that have no key `headers`
the request carries the content type, and `Authorization: Bearer` followed by the token
exactly when `getToken()` is truthy. -/
theorem C20_options_headers_replace_defaults (m : Module) (baseURL endpoint : String)
    (fr : FetchResult Status) :
    (apiRequest m baseURL (tokenStorage "abc") endpoint
        (headerOptions [("X-Request-Id", "7")]) fr).requests.map Request.headers
        = [[("X-Request-Id", "7")]] ∧
      (∀ r ∈ (apiRequest m baseURL (tokenStorage "abc") endpoint
          (headerOptions [("X-Request-Id", "7")]) fr).requests,
        r.headers.lookup "Authorization" = none ∧ r.headers.lookup "Content-Type" = none) ∧
      (∀ (storage : Storage) (method : Option String) (body : Option JsonObject),
        (apiRequest m baseURL storage endpoint (plainOptions method body) fr).requests.map
            Request.headers
          = [if truthy (getToken storage)
              then [("Content-Type", "application/json"),
                    ("Authorization", "Bearer " ++ (getToken storage).getD "")]
              else [("Content-Type", "application/json")]]) := by
  refine ⟨?_, ?_, ?_⟩
  · rw [apiRequest_requests]
    rfl
  · intro r hr
    rw [apiRequest_requests] at hr
    rw [List.mem_singleton.1 hr]
    exact ⟨rfl, rfl⟩
  · intro storage method body
    rw [apiRequest_requests]
    by_cases ht : truthy (getToken storage) = true
    · simp [buildRequest, plainOptions, spreadHeaders, ht, List.lookup]
    · simp [buildRequest, plainOptions, spreadHeaders, ht, List.lookup]

/-! ## Several jobs on one page -/

theorem World.idle_iff (w : World) :
    w.idle = true ↔ ∀ (i : Nat) (s : Session), w.sessions[i]? = some s → s.active = false := by
  simp only [World.idle, List.all_eq_true, Bool.not_eq_true']
  constructor
  · intro h i s hi
    exact h s (List.mem_iff_getElem?.2 ⟨i, hi⟩)
  · intro h s hs
    obtain ⟨i, hi⟩ := List.mem_iff_getElem?.1 hs
    exact h i s hi

theorem List.set_of_getElem? {α : Type} (l : List α) (k : Nat) (y : α)
    (h : l[k]? = some y) : l.set k y = l := by
  apply List.ext_getElem?
  intro i
  rw [List.getElem?_set]
  split_ifs with h1 h2
  · subst h1
    exact h.symm
  · subst h1
    rw [List.getElem?_eq_none (by omega)]
  · rfl

theorem shownStatus_progressCallback (st : PageState) (s : Status) :
    (progressCallback st s).shownStatus = st.shownStatus := by
  unfold progressCallback PageState.shownStatus withProgress
  cases st.reportStatus <;> rfl

theorem shownStatus_intervalCallback (x : PageState × SimSession) :
    (intervalCallback x).1.shownStatus = x.1.shownStatus := by
  unfold intervalCallback PageState.shownStatus withProgress
  simp only
  split_ifs <;> cases x.1.reportStatus <;> rfl

/-- What the answer to a status query does to the page: either a further query is
scheduled and the shown status is as before, or the session ends with the status
`completed` at `100%` or with the status `failed`. -/
theorem answer_page (up : String → String) (clock : Clock) (reportType : String)
    (st : PageState) (t : String) (o : Outcome) :
    ((poll .configApi pageCallbacks t 3000 o).2 = true ∧
        (applyEvents up clock reportType st
          (poll .configApi pageCallbacks t 3000 o).1).shownStatus = st.shownStatus) ∨
      ((poll .configApi pageCallbacks t 3000 o).2 = false ∧
        statusInvariant (applyEvents up clock reportType st
          (poll .configApi pageCallbacks t 3000 o).1)) := by
  cases o with
  | rejected msg =>
    right
    rw [@poll_rejected .configApi pageCallbacks t 3000 (.rejected msg) msg rfl]
    refine ⟨rfl, ?_⟩
    intro h
    have hf : (applyEvents up clock reportType st
        (Event.query t :: (callError pageCallbacks (some msg)).1, false).1).shownStatus
        = some "failed" := rfl
    rw [hf] at h
    exact absurd h (by decide)
  | resolved s =>
    by_cases hs : s.isTerminal = true
    · right
      have hs2 := hs
      simp only [Status.isTerminal, Bool.or_eq_true, decide_eq_true_eq] at hs2
      rcases hs2 with h | h
      · rw [poll_completed .configApi pageCallbacks_quiet t 3000 h]
        exact ⟨rfl, fun _ => rfl⟩
      · rw [poll_failed .configApi pageCallbacks_quiet t 3000 h]
        refine ⟨rfl, ?_⟩
        intro h2
        have hf : (applyEvents up clock reportType st
            (Event.query t :: ((callProgress pageCallbacks s).1
              ++ (callError pageCallbacks (failedArg .configApi s.error)).1),
              false).1).shownStatus = some "failed" := rfl
        rw [hf] at h2
        exact absurd h2 (by decide)
    · left
      have hs2 : s.isTerminal = false := by simpa using hs
      rw [poll_nonterminal .configApi pageCallbacks_quiet t 3000 hs2]
      exact ⟨rfl, shownStatus_progressCallback st s⟩

/-- What a run of `generateReport` does to the sessions and to the shown status: it
starts one session and shows `processing`, or it starts none and shows what was shown. -/
theorem generate_cases (up : String → String) (typeError : String) (clock : Clock)
    (st : PageState) (reportTypeArg : Option String) (o : SubmitOutcome) :
    (∃ e, startedSessions (reportTypeArg.getD "comprehensive")
          (generateReport up typeError clock st reportTypeArg o) = [e] ∧
        e.active = true ∧
        (generateReport up typeError clock st reportTypeArg o).1.shownStatus
          = some "processing") ∨
      (startedSessions (reportTypeArg.getD "comprehensive")
          (generateReport up typeError clock st reportTypeArg o) = [] ∧
        (generateReport up typeError clock st reportTypeArg o).1.reportStatus
          = st.reportStatus) := by
  cases o with
  | rejected msg => exact Or.inl ⟨_, rfl, rfl, rfl⟩
  | resolved body =>
    cases body with
    | jsonNull => exact Or.inl ⟨_, rfl, rfl, rfl⟩
    | object task_id =>
      cases task_id with
      | none => exact Or.inr ⟨rfl, rfl⟩
      | some t =>
        by_cases ht : (t != "") = true
        · left
          refine ⟨Session.poll t (reportTypeArg.getD "comprehensive") true, ?_, rfl, ?_⟩ <;>
            simp [generateReport, ht, startedSessions, PageState.shownStatus]
        · right
          refine ⟨?_, ?_⟩ <;> simp [generateReport, ht, startedSessions]

/-- The invariant when the session that can still run a callback runs one and goes on:
the shown status is as before. -/
theorem World.Inv_keep {w : World} (hInv : w.Inv) {k : Nat} {y x : Session}
    (hy : w.sessions[k]? = some y) (hya : y.active = true)
    {page : PageState} (hst : page.shownStatus = w.page.shownStatus) :
    World.Inv { page := page, sessions := w.sessions.set k x } := by
  obtain ⟨_, h2, h3⟩ := hInv
  have hnot : w.idle = false := by
    by_contra hc
    have hc2 : w.idle = true := by simpa using hc
    have := (World.idle_iff w).1 hc2 k y hy
    rw [hya] at this
    exact Bool.noConfusion this
  have hne : page.shownStatus ≠ some "completed" := by
    rw [hst]
    exact h2 hnot
  refine ⟨fun h => absurd h hne, fun _ => hne, ?_⟩
  intro i s hi hact
  simp only [List.length_set]
  simp only [List.getElem?_set] at hi
  split_ifs at hi with h1 h4
  · subst h1
    exact h3 k y hy hya
  · exact h3 i s hi hact

/-- The invariant when the session that can still run a callback ends. -/
theorem World.Inv_end {w : World} (hInv : w.Inv) {k : Nat} {y x : Session}
    (hy : w.sessions[k]? = some y) (hya : y.active = true) (hxa : x.active = false)
    {page : PageState} (hst : statusInvariant page) :
    World.Inv { page := page, sessions := w.sessions.set k x } := by
  obtain ⟨_, _, h3⟩ := hInv
  have hk := h3 k y hy hya
  have hall : ∀ (i : Nat) (s : Session), (w.sessions.set k x)[i]? = some s →
      s.active = false := by
    intro i s hi
    simp only [List.getElem?_set] at hi
    split_ifs at hi with h1 h4
    · injection hi with hi
      rw [← hi]
      exact hxa
    · by_contra hc
      have hc2 : s.active = true := by simpa using hc
      have := h3 i s hi hc2
      omega
  have hidle : World.idle { page := page, sessions := w.sessions.set k x } = true :=
    (World.idle_iff _).2 hall
  refine ⟨hst, ?_, ?_⟩
  · intro h
    rw [hidle] at h
    exact Bool.noConfusion h
  · intro i s hi hact
    have := hall i s hi
    rw [hact] at this
    exact Bool.noConfusion this

/-- Every step keeps the invariant, provided a report is started only while no earlier
job is in flight. -/
theorem World.Inv_step (up : String → String) (typeError : String) {w : World}
    (hInv : w.Inv) (step : Step)
    (hgen : ∀ clock reportTypeArg o, step = .generate clock reportTypeArg o → w.idle = true) :
    (w.step up typeError step).Inv := by
  cases step with
  | generate clock reportTypeArg o =>
    have hidle := hgen clock reportTypeArg o rfl
    have hold := (World.idle_iff w).1 hidle
    obtain ⟨h1, h2, h3⟩ := hInv
    rcases generate_cases up typeError clock w.page reportTypeArg o with
      ⟨e, hs, hea, hst⟩ | ⟨hs, hst⟩
    · have hne : (generateReport up typeError clock w.page reportTypeArg o).1.shownStatus
          ≠ some "completed" := by
        rw [hst]
        decide
      refine ⟨fun h => absurd h hne, fun _ => hne, ?_⟩
      intro i s hi hact
      simp only [World.step, hs, List.length_append, List.length_singleton] at hi ⊢
      rw [List.getElem?_append] at hi
      split_ifs at hi with hlt
      · have := hold i s hi
        rw [hact] at this
        exact Bool.noConfusion this
      · have hlen : i - w.sessions.length = 0 := by
          by_contra hc
          rw [List.getElem?_eq_none (by simp; omega)] at hi
          exact Option.noConfusion hi
        omega
    · have hsame : w.step up typeError (.generate clock reportTypeArg o)
          = { page := (generateReport up typeError clock w.page reportTypeArg o).1,
              sessions := w.sessions } := by
        simp only [World.step, hs, List.append_nil]
      rw [hsame]
      refine ⟨?_, ?_, h3⟩
      · intro h
        have ha : w.page.shownStatus = some "completed" := by
          simpa only [PageState.shownStatus, hst] using h
        have hb := h1 ha
        simpa only [PageState.shownProgress, hst] using hb
      · intro h
        have : World.idle { page := (generateReport up typeError clock w.page
            reportTypeArg o).1, sessions := w.sessions } = w.idle := rfl
        rw [this, hidle] at h
        exact Bool.noConfusion h
  | answer k clock o =>
    cases hk : w.sessions[k]? with
    | none =>
      have : w.step up typeError (.answer k clock o) = w := by simp only [World.step, hk]
      rw [this]
      exact hInv
    | some y =>
      cases y with
      | sim s0 =>
        have : w.step up typeError (.answer k clock o) = w := by simp only [World.step, hk]
        rw [this]
        exact hInv
      | poll t reportType a =>
        cases a with
        | false =>
          have : w.step up typeError (.answer k clock o) = w := by
            simp only [World.step, hk]
          rw [this]
          exact hInv
        | true =>
          have hstep : w.step up typeError (.answer k clock o)
              = { page := applyEvents up clock reportType w.page
                    (poll .configApi pageCallbacks t 3000 o).1,
                  sessions := w.sessions.set k
                    (.poll t reportType (poll .configApi pageCallbacks t 3000 o).2) } := by
            simp only [World.step, hk]
          rw [hstep]
          rcases answer_page up clock reportType w.page t o with ⟨hb, hst⟩ | ⟨hb, hst⟩
          · rw [hb]
            exact World.Inv_keep hInv hk rfl hst
          · rw [hb]
            exact World.Inv_end (x := .poll t reportType false) hInv hk rfl rfl hst
  | timer k clock =>
    cases hk : w.sessions[k]? with
    | none =>
      have : w.step up typeError (.timer k clock) = w := by simp only [World.step, hk]
      rw [this]
      exact hInv
    | some y =>
      cases y with
      | poll t reportType a =>
        have : w.step up typeError (.timer k clock) = w := by simp only [World.step, hk]
        rw [this]
        exact hInv
      | sim s0 =>
        have hstep : w.step up typeError (.timer k clock)
            = { page := (simStep up clock (w.page, s0)).1.1,
                sessions := w.sessions.set k (.sim (simStep up clock (w.page, s0)).1.2) } := by
          simp only [World.step, hk]
        rw [hstep]
        by_cases hi : s0.intervalActive = true
        · have hsim : simStep up clock (w.page, s0)
              = (intervalCallback (w.page, s0), some .interval) := by
            simp only [simStep, hi, if_true]
          rw [hsim]
          exact World.Inv_keep hInv hk (by simp [Session.active, hi])
            (shownStatus_intervalCallback (w.page, s0))
        · by_cases ht : s0.timeoutPending = true
          · have hsim : simStep up clock (w.page, s0)
                = (timeoutCallback up clock (w.page, s0), some .timeout) := by
              simp only [simStep, hi, ht, if_true, if_false, Bool.false_eq_true]
            rw [hsim]
            refine World.Inv_end hInv hk (by simp [Session.active, ht]) ?_ (fun _ => rfl)
            have hi2 : s0.intervalActive = false := by simpa using hi
            simp [Session.active, timeoutCallback, hi2]
          · have hsim : simStep up clock (w.page, s0) = ((w.page, s0), none) := by
              simp only [simStep, hi, ht, if_false, Bool.false_eq_true]
            rw [hsim]
            simp only
            rw [List.set_of_getElem? w.sessions k (.sim s0) hk]
            exact hInv

/-- The invariant holds after every list of steps in which reports are started one at a
time. -/
theorem World.Inv_run (up : String → String) (typeError : String) (steps : List Step) :
    ∀ w : World, w.Inv → sequential up typeError w steps = true →
      (World.run up typeError w steps).Inv := by
  induction steps with
  | nil => intro w h _; exact h
  | cons step rest ih =>
    intro w hInv hseq
    have hrun : World.run up typeError w (step :: rest)
        = World.run up typeError (w.step up typeError step) rest := rfl
    rw [hrun]
    cases step with
    | generate clock reportTypeArg o =>
      simp only [sequential, Bool.and_eq_true] at hseq
      refine ih _ (World.Inv_step up typeError hInv _ ?_) hseq.2
      intro c r o2 _
      exact hseq.1
    | answer k clock o =>
      simp only [sequential] at hseq
      refine ih _ (World.Inv_step up typeError hInv _ ?_) hseq
      intro c r o2 h
      exact Step.noConfusion h
    | timer k clock =>
      simp only [sequential] at hseq
      refine ih _ (World.Inv_step up typeError hInv _ ?_) hseq
      intro c r o2 h
      exact Step.noConfusion h

theorem World.Inv_mounted (st : PageState) : (World.mounted st).Inv := by
  refine ⟨?_, ?_, ?_⟩
  · intro h
    exact absurd h (by simp [World.mounted, PageState.shownStatus])
  · intro _
    simp [World.mounted, PageState.shownStatus]
  · intro i s hi
    simp [World.mounted] at hi

/-- The statement of C18 fails: two reports are started one after the other and both are
accepted (the flag `generatingReport` is down again after the first submission, so the
second report can be started); the first job completes, then the progress callback of
the second job runs with progress 40. The page then shows the status `completed` with
progress `40%`. -/
theorem C18_counterexample :
    (World.run String.toUpper "" (World.mounted initialPage)
        (twoJobs.take 1)).page.generatingReport = false ∧
    (World.run String.toUpper "" (World.mounted initialPage) twoJobs).page.shownStatus
      = some "completed" ∧
    (World.run String.toUpper "" (World.mounted initialPage) twoJobs).page.shownProgress
      = some "40%" ∧
    ¬ statusInvariant (World.run String.toUpper "" (World.mounted initialPage) twoJobs).page := by
  refine ⟨by decide, by decide, by decide, ?_⟩
  intro h
  have h2 := h (by decide)
  revert h2
  decide

/-- C18, amended. In every state of the page reached from mounting by `generateReport`
calls, answers to status queries and simulator timers, in any order, provided each
`generateReport` call is made while no earlier job can still run a callback: whenever
the shown status is `completed`, the shown progress is `100%`. -/
theorem C18_completed_shows_100_one_job_at_a_time (up : String → String)
    (typeError : String) (st : PageState) (steps : List Step)
    (hseq : sequential up typeError (World.mounted st) steps = true) :
    statusInvariant (World.run up typeError (World.mounted st) steps).page :=
  (World.Inv_run up typeError steps (World.mounted st) (World.Inv_mounted st) hseq).1

/-- A witness of C18: one report polled to completion shows `completed` at `100%`. -/
theorem C18_completed_shows_100_one_job_at_a_time_witness :
    sequential String.toUpper "" (World.mounted initialPage) oneJob = true ∧
      (World.run String.toUpper "" (World.mounted initialPage) oneJob).page.shownStatus
        = some "completed" ∧
      statusInvariant (World.run String.toUpper "" (World.mounted initialPage) oneJob).page :=
  ⟨by decide, by decide,
    C18_completed_shows_100_one_job_at_a_time String.toUpper "" initialPage oneJob
      (by decide)⟩

/-! ## Exceptions raised by callbacks -/

/-- A run of `poll` that schedules nothing ends the session. -/
theorem pollReportStatus_cons_stop (m : Module) (cb : Callbacks) (t : String) (i : Nat)
    (o : Outcome) (rest : List Outcome) (h : (poll m cb t i o).2 = false) :
    pollReportStatus m cb t i (o :: rest) = (poll m cb t i o).1 := by
  rcases hp : poll m cb t i o with ⟨ev, b⟩
  rw [hp] at h
  simp only at h
  subst h
  simp [pollReportStatus, hp]

/-- C21. With `onError` supplied, in both modules: whenever the body of a poll step ends
by an exception of message `x`, the `catch` clause invokes `onError` with `x` and the step
schedules nothing. In particular, when `onComplete` raises on a `completed` status,
`onError` is invoked after `onComplete` in the same session; when `onProgress` raises on
a status (non-terminal or not), the step ends with `onError`; when `onError` raises on a
`failed` status, `onError` is invoked a second time, with the message of the exception.
A step that schedules nothing ends the session: no outcome after it is queried. -/
theorem C21_callback_exception_reported (m : Module) (cb : Callbacks) (taskId : String)
    (interval : Nat) (fe : Option String → CallResult) (he : cb.onError = some fe) :
    (∀ o x, (tryBlock m cb taskId interval o).2 = .thrown x →
        poll m cb taskId interval o
          = ((tryBlock m cb taskId interval o).1 ++ [.error x], false)) ∧
      (∀ s fc x, s.status = some "completed" → (callProgress cb s).2 = .returned →
        cb.onComplete = some fc → fc s = .raised x →
        poll m cb taskId interval (.resolved s)
          = (.query taskId :: ((callProgress cb s).1 ++ [.complete s, .error x]), false)) ∧
      (∀ s fp x, cb.onProgress = some fp → fp s = .raised x →
        poll m cb taskId interval (.resolved s)
          = ([.query taskId, .progress s, .error x], false)) ∧
      (∀ s x, s.status = some "failed" → (callProgress cb s).2 = .returned →
        fe (failedArg m s.error) = .raised x →
        poll m cb taskId interval (.resolved s)
          = (.query taskId :: ((callProgress cb s).1
              ++ [.error (failedArg m s.error), .error x]), false)) ∧
      (∀ o rest, (poll m cb taskId interval o).2 = false →
        pollReportStatus m cb taskId interval (o :: rest)
          = (poll m cb taskId interval o).1) := by
  have hce : ∀ a, callError cb a = ([.error a], fe a) := by
    intro a
    simp only [callError, he]
  refine ⟨?_, ?_, ?_, ?_, ?_⟩
  · intro o x h
    simp only [poll]
    rcases ht : tryBlock m cb taskId interval o with ⟨ev, r⟩
    rw [ht] at h
    simp only at h
    subst h
    simp only [hce]
  · intro s fc x hs hp hc hx
    rcases hcp : callProgress cb s with ⟨e1, r⟩
    rw [hcp] at hp
    simp only at hp
    subst hp
    simp [poll, tryBlock, getReportStatus_resolved, hcp, hs, callComplete, hc, hx, hce]
  · intro s fp x hp hx
    simp [poll, tryBlock, getReportStatus_resolved, callProgress, hp, hx, hce]
  · intro s x hs hp hx
    rcases hcp : callProgress cb s with ⟨e1, r⟩
    rw [hcp] at hp
    simp only at hp
    subst hp
    simp [poll, tryBlock, getReportStatus_resolved, hcp, hs, hce, hx]
  · intro o rest h
    exact pollReportStatus_cons_stop m cb taskId interval o rest h

/-- A witness of C21: `onComplete` raises `boom` on a `completed` status, and both
terminal callbacks are invoked; `onProgress` raises `boom` on a `processing` status, and
the step ends with `onError`; `onError` raises `boom` on the error `quota exceeded` of a
`failed` status, and is invoked a second time, with `boom`. -/
theorem C21_callback_exception_reported_witness :
    poll .configApi (completeRaises "boom") "job-1" 3000
        (.resolved (mkStatus "completed" 100))
      = ([.query "job-1", .progress (mkStatus "completed" 100),
          .complete (mkStatus "completed" 100), .error (some "boom")], false) ∧
    poll .configApi (progressRaises "boom") "job-1" 3000
        (.resolved (mkStatus "processing" 50))
      = ([.query "job-1", .progress (mkStatus "processing" 50), .error (some "boom")],
          false) ∧
    poll .configApi (errorRaisesOn (some "quota exceeded") "boom") "job-1" 3000
        (.resolved (mkFailed (some "quota exceeded")))
      = ([.query "job-1", .progress (mkFailed (some "quota exceeded")),
          .error (some "quota exceeded"), .error (some "boom")], false) :=
  ⟨(C21_callback_exception_reported .configApi (completeRaises "boom") "job-1" 3000
      (fun _ => .returned) rfl).2.1 (mkStatus "completed" 100)
      (fun _ => .raised (some "boom")) (some "boom") rfl rfl rfl rfl,
   (C21_callback_exception_reported .configApi (progressRaises "boom") "job-1" 3000
      (fun _ => .returned) rfl).2.2.1 (mkStatus "processing" 50)
      (fun _ => .raised (some "boom")) (some "boom") rfl rfl,
   (C21_callback_exception_reported .configApi
      (errorRaisesOn (some "quota exceeded") "boom") "job-1" 3000
      (fun a => if a = some "quota exceeded" then .raised (some "boom") else .returned)
      rfl).2.2.2.1 (mkFailed (some "quota exceeded")) (some "boom") rfl rfl rfl⟩

/-! ## The two modules side by side -/

/-- On a well-formed outcome the `try` blocks of the two modules do the same. -/
theorem tryBlock_modules_agree (cb : Callbacks) (t : String) (i : Nat) {o : Outcome}
    (hwf : o.wellFormed = true) :
    tryBlock .configApi cb t i o = tryBlock .apiConfig cb t i o := by
  cases o with
  | rejected msg =>
    have hne : (msg != "") = true := hwf
    simp [tryBlock, getReportStatus, orDefault, hne]
  | resolved s =>
    by_cases hs : s.status = some "failed"
    · have ht : truthy s.error = true := by
        simpa [Outcome.wellFormed, hs] using hwf
      have harg : failedArg .apiConfig s.error = failedArg .configApi s.error := by
        cases he : s.error with
        | none => simp [truthy, he] at ht
        | some e =>
          have hne : (e != "") = true := by simpa [truthy, he] using ht
          simp [failedArg, orDefault, hne]
      simp only [tryBlock, getReportStatus_resolved, harg]
    · simp only [tryBlock, getReportStatus_resolved, hs, if_false]

theorem poll_modules_agree (cb : Callbacks) (t : String) (i : Nat) {o : Outcome}
    (hwf : o.wellFormed = true) :
    poll .configApi cb t i o = poll .apiConfig cb t i o := by
  simp only [poll, tryBlock_modules_agree cb t i hwf]

theorem pollReportStatus_modules_agree (cb : Callbacks) (t : String) (i : Nat)
    (outcomes : List Outcome) (hwf : ∀ o ∈ outcomes, o.wellFormed = true) :
    pollReportStatus .configApi cb t i outcomes
      = pollReportStatus .apiConfig cb t i outcomes := by
  induction outcomes with
  | nil => rfl
  | cons o rest ih =>
    have h1 := poll_modules_agree cb t i (hwf o (List.mem_cons_self _ _))
    have h2 := ih (fun x hx => hwf x (List.mem_cons_of_mem _ hx))
    simp only [pollReportStatus, h1, h2]

/-- C22. For every job id, interval, callbacks and sequence of query outcomes in which
every `failed` status carries a non-empty `error` and every failed query carries a
non-empty message, the poll sessions of `config/api.js` and of `api/config.js` have the
same trace: the same queries, and the same callback invocations with the same arguments
in the same order. On the other outcomes they differ: for a `failed` status whose `error`
is empty or missing `config/api.js` passes `status.error` and `api/config.js` passes
`Report generation failed`; for a failed query with an empty message `config/api.js`
passes the empty message and `api/config.js` passes `Failed to fetch report status.`. -/
theorem C22_modules_observationally_equal (cb : Callbacks) (taskId : String)
    (interval : Nat) (outcomes : List Outcome)
    (hwf : ∀ o ∈ outcomes, o.wellFormed = true) :
    pollReportStatus .configApi cb taskId interval outcomes
        = pollReportStatus .apiConfig cb taskId interval outcomes ∧
      queryCount (pollReportStatus .configApi cb taskId interval outcomes)
        = queryCount (pollReportStatus .apiConfig cb taskId interval outcomes) ∧
      callbacks (pollReportStatus .configApi cb taskId interval outcomes)
        = callbacks (pollReportStatus .apiConfig cb taskId interval outcomes) ∧
      (∀ s : Status, s.status = some "failed" → truthy s.error = false →
        errorArgs (pollReportStatus .configApi recorder taskId interval [.resolved s])
            = [s.error] ∧
          errorArgs (pollReportStatus .apiConfig recorder taskId interval [.resolved s])
            = [some "Report generation failed"]) ∧
      errorArgs (pollReportStatus .configApi recorder taskId interval [.rejected ""])
        = [some ""] ∧
      errorArgs (pollReportStatus .apiConfig recorder taskId interval [.rejected ""])
        = [some "Failed to fetch report status."] := by
  have heq := pollReportStatus_modules_agree cb taskId interval outcomes hwf
  refine ⟨heq, by rw [heq], by rw [heq], ?_, rfl, rfl⟩
  intro s hs ht
  have hot : (Outcome.resolved s).isTerminal = true := by
    simp [Outcome.isTerminal, Status.isTerminal, hs]
  have harg : failedArg .apiConfig s.error = some "Report generation failed" := by
    cases he : s.error with
    | none => rfl
    | some e =>
      have : e = "" := by simpa [truthy, he] using ht
      subst this
      rfl
  constructor
  · rw [pollReportStatus_cons_terminal .configApi recorder taskId interval hot,
      poll_failed .configApi recorder_quiet taskId interval hs]
    rfl
  · rw [pollReportStatus_cons_terminal .apiConfig recorder taskId interval hot,
      poll_failed .apiConfig recorder_quiet taskId interval hs, harg]
    rfl

/-- A witness of C22: scenario 1, then a session that fails with `quota exceeded`. -/
theorem C22_modules_observationally_equal_witness :
    pollReportStatus .configApi recorder "job-1" 2000
        [.resolved (mkStatus "processing" 50), .resolved (mkFailed (some "quota exceeded"))]
      = pollReportStatus .apiConfig recorder "job-1" 2000
        [.resolved (mkStatus "processing" 50), .resolved (mkFailed (some "quota exceeded"))] :=
  (C22_modules_observationally_equal recorder "job-1" 2000
    [.resolved (mkStatus "processing" 50), .resolved (mkFailed (some "quota exceeded"))]
    (by decide)).1

/-! ## The achievements feed -/

/-- The items that `getSampleAchievements` produces from students none of whom has the id
`currentUser` are not endorsed, count their entries, and have no entry of the user. -/
theorem sampleAchievement_pristine (dateDaysAgo : Nat → String) (students : List Student)
    (hstud : ∀ s ∈ students, s.id ≠ JsId.str "currentUser") (index : Nat)
    (student : Student) :
    Pristine (sampleAchievement dateDaysAgo students index student) := by
  refine ⟨rfl, ?_, ?_⟩
  · simp [sampleAchievement, List.enum_length]
  · intro e he
    have hmem : e.peerId ∈ (sampleAchievement dateDaysAgo students index
        student).detailedEndorsements.map Endorsement.peerId := List.mem_map_of_mem _ he
    have hmap : (sampleAchievement dateDaysAgo students index
        student).detailedEndorsements.map Endorsement.peerId
        = (List.map Prod.snd
            ((students.filter fun s => s.id != student.id).take 3).enum).map Student.id := by
      simp only [sampleAchievement, List.map_map]
      rfl
    rw [hmap, List.enum_map_snd] at hmem
    obtain ⟨s0, hs0, hid⟩ := List.mem_map.1 hmem
    rw [← hid]
    exact hstud s0 (List.mem_of_mem_filter (List.mem_of_mem_take hs0))

theorem getSampleAchievements_pristine (dateDaysAgo : Nat → String) (students : List Student)
    (hstud : ∀ s ∈ students, s.id ≠ JsId.str "currentUser") :
    ∀ orig ∈ getSampleAchievements dateDaysAgo students, Pristine orig := by
  intro orig ho
  unfold getSampleAchievements at ho
  split_ifs at ho with h0
  · simp at ho
  · obtain ⟨p, _, hp⟩ := List.mem_map.1 ho
    rw [← hp]
    exact sampleAchievement_pristine dateDaysAgo students hstud p.1 p.2

/-- An item with another id is left as it is. -/
theorem handleEndorseItem_other (n d : String) {a : JsId} {item : Achievement}
    (h : item.id ≠ a) : handleEndorseItem n d a item = item := by
  simp [handleEndorseItem, h]

/-- Endorsing a produced item adds the user's entry. -/
theorem handleEndorseItem_pristine (n d : String) {a : JsId} {orig : Achievement}
    (hp : Pristine orig) (h : orig.id = a) :
    handleEndorseItem n d a orig = endorsedVersion n d orig := by
  simp [handleEndorseItem, endorsedVersion, h, hp.1]

/-- Endorsing an endorsed item again removes the user's entry: the produced item is back. -/
theorem handleEndorseItem_endorsed (n d n2 d2 : String) {a : JsId} {orig : Achievement}
    (hp : Pristine orig) (h : orig.id = a) :
    handleEndorseItem n d a (endorsedVersion n2 d2 orig) = orig := by
  obtain ⟨h1, _, h3⟩ := hp
  have hfilter : (orig.detailedEndorsements ++ [userEndorsement n2 d2]).filter
      (fun e => e.peerId != JsId.str "currentUser") = orig.detailedEndorsements := by
    rw [List.filter_append, List.filter_eq_self.2 (fun e he => by simpa using h3 e he)]
    simp [userEndorsement]
  cases orig with
  | mk id user userId title description progress endorsements endorsedByUser category
      detailedEndorsements peerHistory =>
    simp only at h h1 hfilter
    subst h1
    simp [handleEndorseItem, endorsedVersion, h, hfilter]

theorem reached_step (n d : String) (a : JsId) {orig item : Achievement}
    (h : Reached orig item) : Reached orig (handleEndorseItem n d a item) := by
  obtain ⟨hp, hcase⟩ := h
  refine ⟨hp, ?_⟩
  by_cases ha : orig.id = a
  · rcases hcase with rfl | ⟨n2, d2, rfl⟩
    · exact Or.inr ⟨n, d, handleEndorseItem_pristine n d hp ha⟩
    · exact Or.inl (handleEndorseItem_endorsed n d n2 d2 hp ha)
  · rcases hcase with rfl | ⟨n2, d2, rfl⟩
    · exact Or.inl (handleEndorseItem_other n d ha)
    · right
      exact ⟨n2, d2, handleEndorseItem_other n d (by simpa [endorsedVersion] using ha)⟩

theorem reached_handleEndorse (n d : String) (a : JsId) {feed0 feed : List Achievement}
    (h : List.Forall₂ Reached feed0 feed) :
    List.Forall₂ Reached feed0 (handleEndorse n d a feed) := by
  unfold handleEndorse
  rw [List.forall₂_map_right_iff]
  exact List.Forall₂.imp (fun _ _ hr => reached_step n d a hr) h

theorem reached_endorseAll (calls : List EndorseCall) :
    ∀ {feed0 feed : List Achievement}, List.Forall₂ Reached feed0 feed →
      List.Forall₂ Reached feed0 (endorseAll feed calls) := by
  induction calls with
  | nil => intro feed0 feed h; exact h
  | cons c rest ih =>
    intro feed0 feed h
    exact ih (reached_handleEndorse c.currentUser c.today c.achievementId h)

/-- Every item of a feed reached from a produced feed is the produced item of the same
position, or that item with the user's endorsement added. -/
theorem reached_feed (dateDaysAgo : Nat → String) (students : List Student)
    (hstud : ∀ s ∈ students, s.id ≠ JsId.str "currentUser") (calls : List EndorseCall) :
    List.Forall₂ Reached (getSampleAchievements dateDaysAgo students)
      (endorseAll (getSampleAchievements dateDaysAgo students) calls) := by
  apply reached_endorseAll
  rw [List.forall₂_same]
  intro x hx
  exact ⟨getSampleAchievements_pristine dateDaysAgo students hstud x hx, Or.inl rfl⟩

theorem exists_reached_of_mem {feed0 feed : List Achievement}
    (h : List.Forall₂ Reached feed0 feed) :
    ∀ item ∈ feed, ∃ orig, Reached orig item := by
  induction h with
  | nil => intro item hi; simp at hi
  | cons hr _ ih =>
    intro item hi
    rcases List.mem_cons.1 hi with rfl | hi
    · exact ⟨_, hr⟩
    · exact ih item hi

/-- The count and the flag of a reached item agree with its entries. -/
theorem reached_consistent {orig item : Achievement} (h : Reached orig item) :
    item.endorsements = item.detailedEndorsements.length ∧
      (item.endorsedByUser = true ↔ userEntries item = 1) := by
  obtain ⟨⟨h1, h2, h3⟩, hcase⟩ := h
  have hnone : (orig.detailedEndorsements.filter
      fun e => e.peerId == JsId.str "currentUser") = [] := by
    rw [List.filter_eq_nil_iff]
    intro e he
    simpa using h3 e he
  rcases hcase with rfl | ⟨n, d, rfl⟩
  · refine ⟨h2, ?_⟩
    simp [h1, userEntries, hnone]
  · refine ⟨?_, ?_⟩
    · simp [endorsedVersion, h2]
    · simp [endorsedVersion, userEntries, List.filter_append, hnone, userEndorsement]

/-- The filter of `handleEndorse` removes the user's entry from an endorsed item and
nothing else. -/
theorem filter_endorsedVersion (n d : String) {orig : Achievement} (hp : Pristine orig) :
    (orig.detailedEndorsements ++ [userEndorsement n d]).filter
      (fun e => e.peerId != JsId.str "currentUser") = orig.detailedEndorsements := by
  rw [List.filter_append, List.filter_eq_self.2 (fun e he => by simpa using hp.2.2 e he)]
  simp [userEndorsement]

/-- Two calls for an endorsed item: the user's entry is the one of the second call, and
the item is the same as before exactly when that entry was already in its list. -/
theorem endorsedVersion_twice (n d n2 d2 : String) {orig : Achievement} (hp : Pristine orig) :
    endorsedVersion n2 d2 orig = reEndorsed n2 d2 (endorsedVersion n d orig) ∧
      (endorsedVersion n2 d2 orig = endorsedVersion n d orig ↔
        userEndorsement n2 d2 ∈ (endorsedVersion n d orig).detailedEndorsements) := by
  refine ⟨?_, ?_, ?_⟩
  · simp [endorsedVersion, reEndorsed, filter_endorsedVersion n d hp]
  · intro h
    rw [← h]
    simp [endorsedVersion]
  · intro h
    simp only [endorsedVersion, List.mem_append, List.mem_singleton] at h
    rcases h with h | h
    · exact absurd rfl (hp.2.2 _ h)
    · simp only [endorsedVersion, h]

/-- Two calls for the same achievement, on a reached item. -/
theorem reached_twice (n1 d1 n2 d2 : String) (a : JsId) {orig item : Achievement}
    (h : Reached orig item) :
    (handleEndorseItem n2 d2 a (handleEndorseItem n1 d1 a item)).endorsements
        = item.endorsements ∧
      (handleEndorseItem n2 d2 a (handleEndorseItem n1 d1 a item)).endorsedByUser
        = item.endorsedByUser ∧
      (item.endorsedByUser = false →
        handleEndorseItem n2 d2 a (handleEndorseItem n1 d1 a item) = item) ∧
      (item.id ≠ a → handleEndorseItem n2 d2 a (handleEndorseItem n1 d1 a item) = item) ∧
      (item.endorsedByUser = true → item.id = a →
        handleEndorseItem n2 d2 a (handleEndorseItem n1 d1 a item) = reEndorsed n2 d2 item ∧
          (handleEndorseItem n2 d2 a (handleEndorseItem n1 d1 a item) = item ↔
            userEndorsement n2 d2 ∈ item.detailedEndorsements)) := by
  obtain ⟨hp, hcase⟩ := h
  by_cases ha : orig.id = a
  · rcases hcase with rfl | ⟨n, d, rfl⟩
    · rw [handleEndorseItem_pristine n1 d1 hp ha, handleEndorseItem_endorsed n2 d2 n1 d1 hp ha]
      refine ⟨rfl, rfl, fun _ => rfl, fun _ => rfl, ?_⟩
      intro ht
      rw [hp.1] at ht
      exact absurd ht (by decide)
    · rw [handleEndorseItem_endorsed n1 d1 n d hp ha, handleEndorseItem_pristine n2 d2 hp ha]
      refine ⟨rfl, rfl, ?_, ?_, fun _ _ => endorsedVersion_twice n d n2 d2 hp⟩
      · intro hf
        simp [endorsedVersion] at hf
      · intro hne
        exact absurd ha (by simpa [endorsedVersion] using hne)
  · have hitem : item.id ≠ a := by
      rcases hcase with rfl | ⟨n, d, rfl⟩
      · exact ha
      · simpa [endorsedVersion] using ha
    rw [handleEndorseItem_other n1 d1 hitem, handleEndorseItem_other n2 d2 hitem]
    exact ⟨rfl, rfl, fun _ => rfl, fun _ => rfl, fun _ hid => absurd hid hitem⟩

theorem mem_zip_map {α : Type} (f : α → α) :
    ∀ (l : List α) (x y : α), (x, y) ∈ l.zip (l.map f) → x ∈ l ∧ y = f x := by
  intro l
  induction l with
  | nil => intro x y h; simp at h
  | cons a l ih =>
    intro x y h
    simp only [List.map_cons, List.zip_cons_cons, List.mem_cons, Prod.mk.injEq] at h
    rcases h with ⟨rfl, rfl⟩ | h
    · exact ⟨List.mem_cons_self _ _, rfl⟩
    · obtain ⟨h1, h2⟩ := ih x y h
      exact ⟨List.mem_cons_of_mem _ h1, h2⟩

/-- The statement of C23 fails: two calls for the same achievement do not restore
`detailedEndorsements` of an item that the user had endorsed. After the first achievement
of the fallback students was endorsed on 2025-01-01, two calls for it on 2025-01-02 leave
its last entry dated 2025-01-02, so the feed is not the one before the two calls. -/
theorem C23_counterexample :
    ((endorseAll (getSampleAchievements fixedDate getFallbackStudents) endorsedOnce).head?.map
        fun item => item.detailedEndorsements.getLast?)
      = some (some (userEndorsement "Current User" "2025-01-01")) ∧
    ((endorseAll (endorseAll (getSampleAchievements fixedDate getFallbackStudents)
        endorsedOnce) twiceNextDay).head?.map fun item => item.detailedEndorsements.getLast?)
      = some (some (userEndorsement "Current User" "2025-01-02")) ∧
    endorseAll (endorseAll (getSampleAchievements fixedDate getFallbackStudents)
        endorsedOnce) twiceNextDay
      ≠ endorseAll (getSampleAchievements fixedDate getFallbackStudents) endorsedOnce := by
  decide

/-- C23, amended. Starting from the feed that `getSampleAchievements` produces from
students none of whose `id` is `currentUser`, after every sequence of `handleEndorse`
calls: each item has `endorsements` equal to the length of `detailedEndorsements`, and
`endorsedByUser` is true exactly when exactly one entry has the `peerId` `currentUser`;
the feed keeps its length, and an item that is not endorsed by the user is the produced
item of its position; two calls for the same achievement on the produced feed give the
produced feed back; in every reached feed two calls for the same achievement restore
`endorsements` and `endorsedByUser` of every item, restore every item that was not
endorsed by the user and every item with a different `id`, and turn the endorsed item of
that `id` into itself with the user's entry filtered out and pushed again with the name
and date of the second call, which is the item as it was exactly when that entry was
already in its list; and a call leaves every item with a different `id` as it is. -/
theorem C23_endorsements_consistent (dateDaysAgo : Nat → String) (students : List Student)
    (calls : List EndorseCall) (hstud : ∀ s ∈ students, s.id ≠ JsId.str "currentUser") :
    (∀ item ∈ endorseAll (getSampleAchievements dateDaysAgo students) calls,
        item.endorsements = item.detailedEndorsements.length ∧
          (item.endorsedByUser = true ↔ userEntries item = 1)) ∧
      (endorseAll (getSampleAchievements dateDaysAgo students) calls).length
        = (getSampleAchievements dateDaysAgo students).length ∧
      (∀ orig item, (orig, item) ∈ (getSampleAchievements dateDaysAgo students).zip
          (endorseAll (getSampleAchievements dateDaysAgo students) calls) →
        item.endorsedByUser = false → item = orig) ∧
      (∀ a n1 d1 n2 d2,
        handleEndorse n2 d2 a
            (handleEndorse n1 d1 a (getSampleAchievements dateDaysAgo students))
          = getSampleAchievements dateDaysAgo students) ∧
      (∀ a n1 d1 n2 d2 item item2,
        (item, item2) ∈ (endorseAll (getSampleAchievements dateDaysAgo students) calls).zip
          (handleEndorse n2 d2 a (handleEndorse n1 d1 a
            (endorseAll (getSampleAchievements dateDaysAgo students) calls))) →
        item2.endorsements = item.endorsements ∧
          item2.endorsedByUser = item.endorsedByUser ∧
          (item.endorsedByUser = false → item2 = item) ∧
          (item.id ≠ a → item2 = item) ∧
          (item.endorsedByUser = true → item.id = a →
            item2 = reEndorsed n2 d2 item ∧
              (item2 = item ↔ userEndorsement n2 d2 ∈ item.detailedEndorsements))) ∧
      (∀ a n d item item2,
        (item, item2) ∈ (endorseAll (getSampleAchievements dateDaysAgo students) calls).zip
          (handleEndorse n d a
            (endorseAll (getSampleAchievements dateDaysAgo students) calls)) →
        item.id ≠ a → item2 = item) := by
  have hreach := reached_feed dateDaysAgo students hstud calls
  have hzip := List.forall₂_iff_zip.1 hreach
  refine ⟨?_, hzip.1.symm, ?_, ?_, ?_, ?_⟩
  · intro item hi
    obtain ⟨orig, hr⟩ := exists_reached_of_mem hreach item hi
    exact reached_consistent hr
  · intro orig item hmem hf
    obtain ⟨_, hcase⟩ := hzip.2 hmem
    rcases hcase with rfl | ⟨n, d, rfl⟩
    · rfl
    · simp [endorsedVersion] at hf
  · intro a n1 d1 n2 d2
    simp only [handleEndorse, List.map_map]
    have hid : ∀ x ∈ getSampleAchievements dateDaysAgo students,
        (handleEndorseItem n2 d2 a ∘ handleEndorseItem n1 d1 a) x = id x := by
      intro x hx
      have hr : Reached x x :=
        ⟨getSampleAchievements_pristine dateDaysAgo students hstud x hx, Or.inl rfl⟩
      exact (reached_twice n1 d1 n2 d2 a hr).2.2.1 hr.1.1
    rw [List.map_congr_left hid, List.map_id]
  · intro a n1 d1 n2 d2 item item2 hmem
    simp only [handleEndorse, List.map_map] at hmem
    obtain ⟨hi, rfl⟩ := mem_zip_map _ _ item item2 hmem
    obtain ⟨orig, hr⟩ := exists_reached_of_mem hreach item hi
    exact reached_twice n1 d1 n2 d2 a hr
  · intro a n d item item2 hmem hne
    simp only [handleEndorse] at hmem
    obtain ⟨_, rfl⟩ := mem_zip_map _ _ item item2 hmem
    exact handleEndorseItem_other n d hne

/-- A witness of C23: the fallback students; the first achievement is endorsed, then the
second, then the first again a day later. The first item is the produced one again. -/
theorem C23_endorsements_consistent_witness :
    (∀ item ∈ endorseAll (getSampleAchievements fixedDate getFallbackStudents) sampleCalls,
        item.endorsements = item.detailedEndorsements.length ∧
          (item.endorsedByUser = true ↔ userEntries item = 1)) ∧
      (endorseAll (getSampleAchievements fixedDate getFallbackStudents) sampleCalls).head?
        = (getSampleAchievements fixedDate getFallbackStudents).head? :=
  ⟨(C23_endorsements_consistent fixedDate getFallbackStudents sampleCalls
      (by decide)).1, by decide⟩

end StudentPortal
